import Mathlib

/-!
Shallow embedding of the kube-nova operator's reconciliation engine
(internal/controller/kubenova_controller.go) together with the RBAC
builder (internal/builder, BuildClusterRoleBinding).  Store interactions
are modelled by explicit environments: each environment field records the
result the API server would return for one call site.  Timestamps
(metav1.Now) are omitted: no verified property depends on them.
-/

/-- kubenovaFinalizer constant from the controller. -/
def kubenovaFinalizer : String := "kubenova.io/finalizer"

/-- DeploymentPhase values used by the controller. -/
inductive Phase where
  | Validating
  | Creating
  | Ready
  | Failed
  | Deleting
deriving DecidableEq, Repr

/-- Component states used by checkComponentStatus. -/
inductive ComponentState where
  | Ready
  | Running
  | Pending
deriving DecidableEq, Repr

/-- One entry of status.conditions (lastTransitionTime omitted). -/
structure Condition where
  ctype : String
  status : Bool
  reason : String
  message : String
  observedGeneration : Nat
deriving DecidableEq, Repr

/-- ComponentStatus for one managed component (lastTransitionTime omitted). -/
structure ComponentStatus where
  state : ComponentState
  desiredReplicas : Nat
  readyReplicas : Nat
  message : String
deriving DecidableEq, Repr

/-- status.accessInfo.  Service endpoints are a Go map, modelled as a
lookup function. -/
structure AccessInfo where
  webURL : String
  serviceEndpoints : String → Option String
  databaseEndpoint : String
  cacheEndpoint : String
  storageEndpoint : String
  jaegerUIURL : String

/-- status.componentStatus: a Go map of backend services plus the web entry. -/
structure ComponentStatusMap where
  services : String → Option ComponentStatus
  web : Option ComponentStatus

/-- The status sub-document of the root entity (lastUpdateTime omitted). -/
structure KubeNovaStatus where
  phase : Phase
  message : String
  observedGeneration : Nat
  conditions : List Condition
  componentStatus : ComponentStatusMap
  accessInfo : Option AccessInfo

/-- Web exposure: ingress TLS block. -/
structure IngressTLS where
  enabled : Bool
deriving DecidableEq, Repr

/-- Web exposure: ingress block (host + optional TLS). -/
structure IngressSpec where
  host : String
  tls : Option IngressTLS
deriving DecidableEq, Repr

/-- The web part of the root spec used by updateAccessInfo. -/
structure WebSpec where
  exposeType : String
  ingress : Option IngressSpec
deriving DecidableEq, Repr

/-- The parts of the root spec the embedded functions read.  The
database/cache/storage endpoints are pure functions of spec fields
(GetDatabaseEndpoint etc., defined outside the reconciler); they are
carried as precomputed strings. -/
structure KubeNovaSpec where
  web : WebSpec
  databaseEndpoint : String
  cacheEndpoint : String
  storageEndpoint : String
  telemetryEnabled : Bool
  jaegerEndpoint : String

/-- The root entity: identity, metadata and the two documents. -/
structure KubeNova where
  name : String
  ns : String
  generation : Nat
  resourceVersion : Nat
  deletionTimestampSet : Bool
  finalizers : List String
  spec : KubeNovaSpec
  status : KubeNovaStatus

/-- Condition types used by the controller. -/
def ConditionTypeValidated : String := "Validated"

/-- Ready condition type. -/
def ConditionTypeReady : String := "Ready"

/-- meta.SetStatusCondition: replace the condition with the same type in
place, or append if absent. -/
def setStatusCondition (conds : List Condition) (c : Condition) : List Condition :=
  if conds.any (fun x => decide (x.ctype = c.ctype)) then
    conds.map (fun x => if x.ctype = c.ctype then c else x)
  else
    conds ++ [c]

/-- meta.FindStatusCondition. -/
def findCondition (conds : List Condition) (t : String) : Option Condition :=
  conds.find? (fun c => decide (c.ctype = t))

/-- setStatusPhase: mutates only the in-memory status object.  It sets
phase, message and observedGeneration := generation on every call. -/
def setStatusPhase (kn : KubeNova) (phase : Phase) (message : String) : KubeNova :=
  { kn with status := { kn.status with
      phase := phase
      message := message
      observedGeneration := kn.generation } }

/-- The deterministic ClusterRoleBinding name computed in reconcileDelete:
fmt.Sprintf("kube-nova-%s-%s-cluster-admin", kubenova.Namespace, kubenova.Name). -/
def clusterRoleBindingDeleteName (ns name : String) : String :=
  "kube-nova-" ++ ns ++ "-" ++ name ++ "-cluster-admin"

/-- ServiceAccountName constant consumed by the RBAC builder. -/
def ServiceAccountName : String := "kube-nova-sa"

/-- The ClusterRoleBinding document shape produced by the builder. -/
structure ClusterRoleBinding where
  crbName : String
  instanceLabel : String
  subjectName : String
  subjectNs : String
  roleName : String
deriving DecidableEq, Repr

/-- BuildClusterRoleBinding from the builder package: the name is
fmt.Sprintf("kube-nova-%s-%s-cluster-admin", namespace, kn.Name). -/
def BuildClusterRoleBinding (kn : KubeNova) (namesp : String) : ClusterRoleBinding :=
  { crbName := "kube-nova-" ++ namesp ++ "-" ++ kn.name ++ "-cluster-admin"
    instanceLabel := kn.name
    subjectName := ServiceAccountName
    subjectNs := namesp
    roleName := "cluster-admin" }

/-! ## Deletion lifecycle (reconcileDelete) -/

/-- Result of the Get call on the ClusterRoleBinding in reconcileDelete.
The source distinguishes only err == nil (found) from any error; a
not-found error and a transient error take the same branch. -/
inductive CRBGetResult where
  | found
  | notFound
  | getErr
deriving DecidableEq, Repr

/-- Result of the Delete call on the ClusterRoleBinding. -/
inductive CRBDeleteResult where
  | ok
  | notFound
  | err
deriving DecidableEq, Repr

/-- Store responses consumed by one run of reconcileDelete. -/
structure DeleteEnv where
  crbGet : CRBGetResult
  crbDelete : CRBDeleteResult
  finalizerUpdateOk : Bool
deriving DecidableEq, Repr

/-- Observable outcome of one run of reconcileDelete.
finalizerRemoved records that the finalizer removal was persisted (the
Update after RemoveFinalizer succeeded). -/
structure DeleteOutcome where
  isError : Bool
  deleteCalled : Bool
  deleteName : String
  finalizerRemoved : Bool
deriving DecidableEq, Repr

/-- The tail of reconcileDelete: RemoveFinalizer then r.Update. -/
def removeFinalizerStep (env : DeleteEnv) (kn : KubeNova) (deleteCalled : Bool)
    (crbName : String) : DeleteOutcome × KubeNova :=
  let kn' := { kn with finalizers := kn.finalizers.filter (fun f => decide (f ≠ kubenovaFinalizer)) }
  if env.finalizerUpdateOk then
    ({ isError := false, deleteCalled := deleteCalled, deleteName := crbName,
       finalizerRemoved := true }, kn')
  else
    ({ isError := true, deleteCalled := deleteCalled, deleteName := crbName,
       finalizerRemoved := false }, kn')

/-- reconcileDelete: set phase Deleting (status write is best-effort and
ignored), delete the ClusterRoleBinding only when the preliminary Get
succeeded, then remove the finalizer.  A Delete error other than
not-found returns the error before finalizer removal; any Get error
(not-found or transient) skips the delete entirely. -/
def reconcileDelete (env : DeleteEnv) (kn : KubeNova) : DeleteOutcome × KubeNova :=
  let kn := setStatusPhase kn Phase.Deleting "正在删除资源"
  let crbName := clusterRoleBindingDeleteName kn.ns kn.name
  match env.crbGet with
  | CRBGetResult.found =>
      match env.crbDelete with
      | CRBDeleteResult.err =>
          ({ isError := true, deleteCalled := true, deleteName := crbName,
             finalizerRemoved := false }, kn)
      | _ => removeFinalizerStep env kn true crbName
  | _ => removeFinalizerStep env kn false crbName

/-! ## Retry-safe status writer (updateStatusWithRetry) -/

/-- Result of one Status().Update call.  On success the store assigns a
fresh resourceVersion, which the client writes back into the object. -/
inductive UpdResult where
  | ok (newVersion : Nat)
  | conflict
  | err
deriving DecidableEq, Repr

/-- Store responses for one run of updateStatusWithRetry, indexed by
attempt number (0, 1, 2): the refetched object and the update outcome. -/
structure StatusWriteEnv where
  fetch : Nat → Option KubeNova
  upd : Nat → UpdResult

/-- The retry loop of updateStatusWithRetry.  i is the loop index;
remaining is the fuel 3 - i.  The returned list logs every document
passed to Status().Update, in order.  A conflict with i < 2 sleeps and
retries; any other error, or a conflict on the last attempt, returns the
error.  The fuel-exhausted branch mirrors the (unreachable) final
return fmt.Errorf of the source. -/
def updateStatusLoop (env : StatusWriteEnv) (kn : KubeNova) :
    Nat → Nat → List KubeNova → (Except String KubeNova × List KubeNova)
  | _, 0, log => (Except.error "状态更新失败，已重试 3 次", log)
  | i, remaining + 1, log =>
    match env.fetch i with
    | none => (Except.error "重新获取对象失败", log)
    | some latest =>
      match env.upd i with
      | UpdResult.conflict =>
          if i < 2 then
            updateStatusLoop env kn (i + 1) remaining (log ++ [{ latest with status := kn.status }])
          else (Except.error "状态更新冲突", log ++ [{ latest with status := kn.status }])
      | UpdResult.err =>
          (Except.error "状态更新失败", log ++ [{ latest with status := kn.status }])
      | UpdResult.ok v =>
          (Except.ok { kn with status := kn.status, resourceVersion := v },
           log ++ [{ latest with status := kn.status }])

/-- updateStatusWithRetry: at most 3 attempts starting at index 0. -/
def updateStatusWithRetry (env : StatusWriteEnv) (kn : KubeNova) :
    Except String KubeNova × List KubeNova :=
  updateStatusLoop env kn 0 3 []

/-! ## Diff engine data model

Workload (Deployment) documents, restricted to the fields the controller
reads or writes, plus representative fields outside the comparison set
(labels, selector, nodeSelector, container ports, the status
sub-document) so that frame properties are expressible. -/

/-- corev1.EnvVar.  valueFromRef stands for the ValueFrom reference; the
diff engine never reads it. -/
structure EnvVar where
  ename : String
  value : String
  valueFromRef : Option String
deriving DecidableEq, Repr

/-- corev1.VolumeMount (fields read by the diff engine plus readOnly). -/
structure VolumeMount where
  vmName : String
  mountPath : String
  readOnly : Bool
deriving DecidableEq, Repr

/-- corev1.Volume: a name plus its source description (the diff engine
compares names only). -/
structure Volume where
  vname : String
  source : String
deriving DecidableEq, Repr

/-- corev1.ResourceRequirements.  reflect.DeepEqual on the two quantity
maps is modelled as equality of association lists (no claim exercises
resource-map ordering). -/
structure ResourceRequirements where
  requests : List (String × String)
  limits : List (String × String)
deriving DecidableEq, Repr

/-- A container: compared fields plus ports (outside the comparison set). -/
structure Container where
  cname : String
  image : String
  env : List EnvVar
  resources : ResourceRequirements
  volumeMounts : List VolumeMount
  ports : List Nat
deriving DecidableEq, Repr

/-- PodSpec fields the controller touches, plus nodeSelector (outside the
comparison set). -/
structure PodSpec where
  containers : List Container
  volumes : List Volume
  serviceAccountName : String
  imagePullSecrets : List String
  nodeSelector : List (String × String)
deriving DecidableEq, Repr

/-- Pod template: store-injected labels plus the pod spec. -/
structure PodTemplate where
  labels : List (String × String)
  podSpec : PodSpec
deriving DecidableEq, Repr

/-- appsv1.DeploymentSpec (Replicas is a *int32). -/
structure DeploymentSpec where
  replicas : Option Int
  selector : List (String × String)
  template : PodTemplate
deriving DecidableEq, Repr

/-- A full Deployment document: metadata labels, spec, and the
status.readyReplicas field read by the status aggregator. -/
structure Deployment where
  dname : String
  labels : List (String × String)
  dspec : DeploymentSpec
  readyReplicas : Nat
deriving DecidableEq, Repr

/-- Point update of a string-keyed lookup function (one Go map write). -/
def updMap {α : Type} (m : String → Option α) (k : String) (v : α) : String → Option α :=
  fun x => if x = k then some v else m x

/-- Recursive last-write-wins lookup over a key-value list: entries
later in the list overwrite earlier ones, mirroring a Go map built by a
left-to-right insertion loop. -/
def pairMapR {α : Type} : List (String × α) → String → Option α
  | [], _ => none
  | p :: t, k =>
    match pairMapR t k with
    | some v => some v
    | none => if k = p.1 then some p.2 else none

/-- aMap of compareEnvVars: insert name → value for every entry whose
literal Value is non-empty. -/
def goEnvMap (a : List EnvVar) : String → Option String :=
  a.foldl (fun m e => if e.value ≠ "" then updMap m e.ename e.value else m) (fun _ => none)

/-- The entries of an env list that reach the map, as (name, value) pairs. -/
def keptEnv (a : List EnvVar) : List (String × String) :=
  (a.filter (fun e => decide (e.value ≠ ""))).map (fun e => (e.ename, e.value))

/-- compareEnvVars: length check, then reflect.DeepEqual(aMap, bMap).
DeepEqual on map[string]string is equality of the lookup functions; it
is checked extensionally on the (superset) key sets contributed by both
lists — a key present in neither map looks up to none on both sides. -/
def compareEnvVars (a b : List EnvVar) : Bool :=
  decide (a.length = b.length) &&
  (a.all (fun e => decide (goEnvMap a e.ename = goEnvMap b e.ename)) &&
   b.all (fun e => decide (goEnvMap a e.ename = goEnvMap b e.ename)))

/-- compareInt32Ptr on *int32. -/
def compareInt32Ptr (a b : Option Int) : Bool :=
  match a, b with
  | none, none => true
  | some x, some y => decide (x = y)
  | _, _ => false

/-- compareResourceRequirements: DeepEqual on Requests and Limits. -/
def compareResourceRequirements (a b : ResourceRequirements) : Bool :=
  decide (a.requests = b.requests) && decide (a.limits = b.limits)

/-- aMap of compareVolumeMounts: the whole VolumeMount keyed by name
(a later duplicate name overwrites an earlier one). -/
def goVMMap (a : List VolumeMount) : String → Option VolumeMount :=
  a.foldl (fun m vm => updMap m vm.vmName vm) (fun _ => none)

/-- compareVolumeMounts: length check, then every entry of b must find a
same-named entry of aMap with the same MountPath. -/
def compareVolumeMounts (a b : List VolumeMount) : Bool :=
  decide (a.length = b.length) &&
  b.all (fun vm =>
    match goVMMap a vm.vmName with
    | some ex => decide (ex.mountPath = vm.mountPath)
    | none => false)

/-- compareVolumes: length check, then every name of b must appear in a
(aMap is a set of names, so lookup is plain membership). -/
def compareVolumes (a b : List Volume) : Bool :=
  decide (a.length = b.length) &&
  b.all (fun v => a.any (fun w => decide (w.vname = v.vname)))

/-- deploymentSpecEqual: replica pointer, container-list length, then
image / env / resources / volume mounts of the first container, pod
volumes, and serviceAccountName.  The source's early returns become a
conjunction; the both-lists-checked-non-empty guard becomes a match
(when exactly one list is empty the length conjunct is already false). -/
def deploymentSpecEqual (existing desired : DeploymentSpec) : Bool :=
  compareInt32Ptr existing.replicas desired.replicas &&
  decide (existing.template.podSpec.containers.length =
          desired.template.podSpec.containers.length) &&
  (match existing.template.podSpec.containers, desired.template.podSpec.containers with
   | ec :: _, dc :: _ =>
     decide (ec.image = dc.image) &&
     compareEnvVars ec.env dc.env &&
     compareResourceRequirements ec.resources dc.resources &&
     compareVolumeMounts ec.volumeMounts dc.volumeMounts
   | _, _ => true) &&
  compareVolumes existing.template.podSpec.volumes desired.template.podSpec.volumes &&
  decide (existing.template.podSpec.serviceAccountName =
          desired.template.podSpec.serviceAccountName)

/-! ## Workload update path (reconcileServices / reconcileWeb) -/

/-- The backend-tier splice: onto the freshly fetched document, replace
Replicas, Containers, Volumes, ServiceAccountName and ImagePullSecrets
with the desired values. -/
def spliceBackendDeployment (latest desired : Deployment) : Deployment :=
  { latest with dspec := { latest.dspec with
      replicas := desired.dspec.replicas
      template := { latest.dspec.template with podSpec := { latest.dspec.template.podSpec with
        containers := desired.dspec.template.podSpec.containers
        volumes := desired.dspec.template.podSpec.volumes
        serviceAccountName := desired.dspec.template.podSpec.serviceAccountName
        imagePullSecrets := desired.dspec.template.podSpec.imagePullSecrets } } } }

/-- The web-tier splice: identical except that ServiceAccountName is not
copied (the source omits that line in reconcileWeb). -/
def spliceWebDeployment (latest desired : Deployment) : Deployment :=
  { latest with dspec := { latest.dspec with
      replicas := desired.dspec.replicas
      template := { latest.dspec.template with podSpec := { latest.dspec.template.podSpec with
        containers := desired.dspec.template.podSpec.containers
        volumes := desired.dspec.template.podSpec.volumes
        imagePullSecrets := desired.dspec.template.podSpec.imagePullSecrets } } } }

/-- One backend Deployment reconcile step: create when absent; when
present and deploymentSpecEqual reports unequal, write the splice of the
refetched document (latest) and the desired one; otherwise write
nothing.  Returns the document written, if any. -/
def reconcileDeploymentStep (existing : Option Deployment) (latest desired : Deployment) :
    Option Deployment :=
  match existing with
  | none => some desired
  | some ex =>
      if deploymentSpecEqual ex.dspec desired.dspec then none
      else some (spliceBackendDeployment latest desired)

/-- One web Deployment reconcile step (web splice). -/
def reconcileWebDeploymentStep (existing : Option Deployment) (latest desired : Deployment) :
    Option Deployment :=
  match existing with
  | none => some desired
  | some ex =>
      if deploymentSpecEqual ex.dspec desired.dspec then none
      else some (spliceWebDeployment latest desired)

/-- A Service (network-expose) port. -/
structure ServicePort where
  pname : String
  port : Nat
  nodePort : Nat
deriving DecidableEq, Repr

/-- A Service document: its ports (cluster-assigned nodePorts included). -/
structure ServiceObj where
  ports : List ServicePort
deriving DecidableEq, Repr

/-- One Service reconcile step, shared by both tiers: create when absent,
never update an existing document.  Returns the document written, if any. -/
def reconcileServiceStep (existing : Option ServiceObj) (desired : ServiceObj) :
    Option ServiceObj :=
  match existing with
  | none => some desired
  | some _ => none

/-! ## Status aggregator (checkComponentStatus, updateAccessInfo, getNodeIP) -/

/-- A live workload document as read by the status aggregator.
Spec.Replicas is dereferenced unconditionally there, and live objects
always carry the API-defaulted value, so the count is plain. -/
structure ObservedDeployment where
  replicas : Nat
  readyReplicas : Nat
deriving DecidableEq, Repr

/-- Node address types relevant to getNodeIP. -/
inductive AddrKind where
  | ExternalIP
  | InternalIP
  | Hostname
deriving DecidableEq, Repr

/-- One entry of node.Status.Addresses. -/
structure NodeAddress where
  kind : AddrKind
  address : String
deriving DecidableEq, Repr

/-- One entry of node.Status.Conditions. -/
structure NodeCondition where
  ckind : String
  ctrue : Bool
deriving DecidableEq, Repr

/-- A cluster node as read by getNodeIP. -/
structure Node where
  conditions : List NodeCondition
  addresses : List NodeAddress
deriving DecidableEq, Repr

/-- Live cluster state consumed by one pass of the status aggregator:
workload documents by name (none covers both a not-found and an errored
Get — the source skips the component either way), the web Service and
the node inventory (none = the List call failed). -/
structure ClusterEnv where
  deployments : String → Option ObservedDeployment
  webService : Option ServiceObj
  nodes : Option (List Node)

/-- The node Ready-condition scan inside getNodeIP. -/
def nodeIsReady (n : Node) : Bool :=
  n.conditions.any (fun c => decide (c.ckind = "Ready") && c.ctrue)

/-- First address of a node with the given kind. -/
def firstAddr (n : Node) (k : AddrKind) : Option String :=
  (n.addresses.find? (fun a => decide (a.kind = k))).map (fun a => a.address)

/-- The main loop of getNodeIP: the first ready node carrying an
ExternalIP (preferred) or InternalIP yields that address; a ready node
with neither is passed over. -/
def readyNodeIP : List Node → Option String
  | [] => none
  | n :: rest =>
    if nodeIsReady n then
      match firstAddr n AddrKind.ExternalIP with
      | some a => some a
      | none =>
        match firstAddr n AddrKind.InternalIP with
        | some a => some a
        | none => readyNodeIP rest
    else readyNodeIP rest

/-- The fallback of getNodeIP: the first External/Internal address of the
first listed node. -/
def fallbackNodeIP (n : Node) : Option String :=
  (n.addresses.find? (fun a =>
    decide (a.kind = AddrKind.ExternalIP) || decide (a.kind = AddrKind.InternalIP))).map
    (fun a => a.address)

/-- getNodeIP: empty string when the node List call fails, when the list
is empty, or when neither the ready-node scan nor the first-node
fallback yields an address. -/
def getNodeIP (nodeList : Option (List Node)) : String :=
  match nodeList with
  | none => ""
  | some [] => ""
  | some (first :: rest) =>
    match readyNodeIP (first :: rest) with
    | some ip => ip
    | none =>
      match fallbackNodeIP first with
      | some ip => ip
      | none => ""

/-- The port scan of the nodeport branch of updateAccessInfo: the loop
assigns without breaking, so the last matching port wins.  Returns
(httpPort, httpsPort), 0 meaning unassigned. -/
def scanWebPorts (ports : List ServicePort) : Nat × Nat :=
  ports.foldl (fun hp p =>
    ((if decide (p.pname = "http") && decide (p.nodePort > 0) then p.nodePort else hp.1),
     (if decide (p.pname = "https") && decide (p.nodePort > 0) then p.nodePort else hp.2)))
    (0, 0)

/-- The WebURL computation of updateAccessInfo.  current is the value
already in status (kept when the expose type matches neither branch). -/
def computeWebURL (web : WebSpec) (webSvc : Option ServiceObj) (nodeIP : String)
    (current : String) : String :=
  if web.exposeType = "ingress" then
    match web.ingress with
    | some ing =>
      let protocol := match ing.tls with
        | some tls => if tls.enabled then "https" else "http"
        | none => "http"
      protocol ++ "://" ++ ing.host
    | none => current
  else if web.exposeType = "nodeport" then
    match webSvc with
    | some svc =>
      let hp := scanWebPorts svc.ports
      if hp.2 > 0 then
        if nodeIP ≠ "" then "https://" ++ nodeIP ++ ":" ++ toString hp.2
        else "https://<NODE-IP>:" ++ toString hp.2
      else if hp.1 > 0 then
        if nodeIP ≠ "" then "http://" ++ nodeIP ++ ":" ++ toString hp.1
        else "http://<NODE-IP>:" ++ toString hp.1
      else "NodePort (端口分配中...)"
    | none => "Service 创建中..."
  else current

/-- The fixed backend service list of checkComponentStatus and
updateAccessInfo. -/
def serviceNames : List String :=
  ["portal-api", "portal-rpc", "manager-api", "manager-rpc",
   "workload-api", "console-api", "console-rpc"]

/-- updateAccessInfo: start from the current access info (or a zero value
when absent), recompute the web URL, the fixed service endpoints and the
spec-derived endpoints.  It never fails. -/
def updateAccessInfo (env : ClusterEnv) (kn : KubeNova) : KubeNova :=
  let info := match kn.status.accessInfo with
    | some i => i
    | none =>
      { webURL := "", serviceEndpoints := fun _ => none, databaseEndpoint := ""
        cacheEndpoint := "", storageEndpoint := "", jaegerUIURL := "" }
  let url := computeWebURL kn.spec.web env.webService (getNodeIP env.nodes) info.webURL
  let info := { info with webURL := url }
  let endpoints := serviceNames.foldl
    (fun m svc => updMap m svc (svc ++ "." ++ kn.ns ++ ".svc.cluster.local"))
    info.serviceEndpoints
  let info := { info with serviceEndpoints := endpoints }
  let info := { info with
    databaseEndpoint := kn.spec.databaseEndpoint
    cacheEndpoint := kn.spec.cacheEndpoint
    storageEndpoint := kn.spec.storageEndpoint }
  let info := if kn.spec.telemetryEnabled
    then { info with jaegerUIURL := kn.spec.jaegerEndpoint } else info
  { kn with status := { kn.status with accessInfo := some info } }

/-- The backend classification of checkComponentStatus: Ready when
ready = desired, else Running when ready > 0, else Pending. -/
def backendComponentStatus (d : ObservedDeployment) : ComponentStatus :=
  if d.readyReplicas = d.replicas then
    { state := ComponentState.Ready, desiredReplicas := d.replicas,
      readyReplicas := d.readyReplicas, message := "服务运行正常" }
  else if d.readyReplicas > 0 then
    { state := ComponentState.Running, desiredReplicas := d.replicas,
      readyReplicas := d.readyReplicas,
      message := "服务部分就绪 (" ++ toString d.readyReplicas ++ "/" ++ toString d.replicas ++ ")" }
  else
    { state := ComponentState.Pending, desiredReplicas := d.replicas,
      readyReplicas := d.readyReplicas, message := "等待 Pod 启动" }

/-- The web classification of checkComponentStatus: Ready when
ready = desired, otherwise Running (there is no Pending branch). -/
def webComponentStatus (d : ObservedDeployment) : ComponentStatus :=
  if d.readyReplicas = d.replicas then
    { state := ComponentState.Ready, desiredReplicas := d.replicas,
      readyReplicas := d.readyReplicas, message := "Web 前端运行正常" }
  else
    { state := ComponentState.Running, desiredReplicas := d.replicas,
      readyReplicas := d.readyReplicas,
      message := "Web 前端部分就绪 (" ++ toString d.readyReplicas ++ "/" ++ toString d.replicas ++ ")" }

/-- The effect of the backend loop of checkComponentStatus on the
Services map: each found workload document overwrites its entry; a
missing (or unreadable) one is skipped. -/
def checkBackendMap (env : ClusterEnv) (names : List String)
    (m : String → Option ComponentStatus) : String → Option ComponentStatus :=
  names.foldl (fun m s =>
    match env.deployments s with
    | none => m
    | some d => updMap m s (backendComponentStatus d)) m

/-- The effect of the backend loop on the allReady flag: allReady is
cleared exactly by a found component whose ready count differs from its
desired count. -/
def backendAllReady (env : ClusterEnv) (names : List String) : Bool :=
  names.all (fun s =>
    match env.deployments s with
    | none => true
    | some d => decide (d.readyReplicas = d.replicas))

/-- The web deployment name. -/
def webDeploymentName : String := "kube-nova-web"

/-- The contribution of the web block to allReady: cleared exactly when
the web workload is found with ready ≠ desired. -/
def webReadyFlag (env : ClusterEnv) : Bool :=
  match env.deployments webDeploymentName with
  | none => true
  | some d => decide (d.readyReplicas = d.replicas)

/-- The final allReady flag of checkComponentStatus. -/
def allComponentsReadyFlag (env : ClusterEnv) : Bool :=
  backendAllReady env serviceNames && webReadyFlag env

/-- checkComponentStatus without the final status write: classify every
found backend workload and the web workload, update access info, then
set phase Ready with a Ready=True condition when allReady, else phase
Creating with a Ready=False condition. -/
def checkComponentStatus (env : ClusterEnv) (kn : KubeNova) : KubeNova :=
  let svcs := checkBackendMap env serviceNames kn.status.componentStatus.services
  let webEntry := match env.deployments webDeploymentName with
    | none => kn.status.componentStatus.web
    | some d => some (webComponentStatus d)
  let allReady := allComponentsReadyFlag env
  let kn := { kn with status := { kn.status with
    componentStatus := { services := svcs, web := webEntry } } }
  let kn := updateAccessInfo env kn
  if allReady then
    let kn := setStatusPhase kn Phase.Ready "所有组件运行正常"
    let c : Condition :=
      { ctype := ConditionTypeReady, status := true, reason := "AllComponentsReady",
        message := "所有组件运行正常", observedGeneration := kn.generation }
    { kn with status := { kn.status with conditions := setStatusCondition kn.status.conditions c } }
  else
    let kn := setStatusPhase kn Phase.Creating "部分组件尚未就绪"
    let c : Condition :=
      { ctype := ConditionTypeReady, status := false, reason := "ComponentsNotReady",
        message := "部分组件尚未就绪", observedGeneration := kn.generation }
    { kn with status := { kn.status with conditions := setStatusCondition kn.status.conditions c } }

/-! ## Reconcile pipeline (entry logic + stages 1-8)

Stage bodies other than the status aggregation only talk to the store,
so each is abstracted by the success bit of its store interaction; the
in-memory status mutations each stage performs are kept.  Failure
messages keep the Chinese prefix of the source, the wrapped cause being
abstracted away.  The retry-safe writer invoked on each failure path is
best-effort there (its error is only logged), so the pipeline records
the payload handed to it rather than a write outcome. -/

/-- Per-pass terminal outcomes of Reconcile. -/
inductive ReconcileResult where
  | done
  | requeueImmediate
  | idleRequeue
  | errorBackoff
  | shortRequeue
  | fullRequeue
  | deleteError
deriving DecidableEq, Repr

/-- Store success bits for the seven staged store interactions plus the
live-state environment of the aggregation stage. -/
structure PipelineEnv where
  validationOk : Bool
  namespaceOk : Bool
  rbacOk : Bool
  secretOk : Bool
  configMapsOk : Bool
  servicesOk : Bool
  webOk : Bool
  cluster : ClusterEnv
  finalStatusWriteOk : Bool

/-- Observable output of one pass: the requeue decision, the in-memory
root afterwards, and the status payloads handed to the retry-safe
writer, in order. -/
structure PassOutput where
  result : ReconcileResult
  root : Option KubeNova
  statusWrites : List KubeNovaStatus

/-- The Validated condition recorded by reconcileValidation. -/
def validatedCondition (kn : KubeNova) (ok : Bool) : KubeNova :=
  let c : Condition :=
    if ok then
      { ctype := ConditionTypeValidated, status := true, reason := "ValidationSucceeded",
        message := "配置验证成功", observedGeneration := kn.generation }
    else
      { ctype := ConditionTypeValidated, status := false, reason := "ValidationFailed",
        message := "配置验证失败", observedGeneration := kn.generation }
  { kn with status := { kn.status with conditions := setStatusCondition kn.status.conditions c } }

/-- A stage-failure exit: set phase Failed, hand the status to the
retry-safe writer, and requeue after the error backoff (≈ 1 minute). -/
def failPass (kn : KubeNova) (msg : String) : PassOutput :=
  let kn := setStatusPhase kn Phase.Failed msg
  { result := ReconcileResult.errorBackoff, root := some kn, statusWrites := [kn.status] }

/-- Stages 1-8 in source order, each gated on the previous one. -/
def runPipeline (env : PipelineEnv) (kn : KubeNova) : PassOutput :=
  let kn := setStatusPhase kn Phase.Validating "正在验证配置"
  if !env.validationOk then
    failPass (validatedCondition kn false) "配置验证失败"
  else
  let kn := validatedCondition kn true
  if !env.namespaceOk then failPass kn "Namespace 错误"
  else if !env.rbacOk then failPass kn "创建 RBAC 资源失败"
  else if !env.secretOk then failPass kn "创建 Secret 失败"
  else if !env.configMapsOk then failPass kn "创建 ConfigMap 失败"
  else
  let kn := setStatusPhase kn Phase.Creating "正在部署后端服务"
  if !env.servicesOk then failPass kn "部署后端服务失败"
  else if !env.webOk then failPass kn "部署 Web 前端失败"
  else
    let kn := checkComponentStatus env.cluster kn
    if env.finalStatusWriteOk then
      { result := ReconcileResult.fullRequeue, root := some kn, statusWrites := [kn.status] }
    else
      { result := ReconcileResult.shortRequeue, root := some kn, statusWrites := [kn.status] }

/-- Reconcile entry logic: not-found is Done; a deletion timestamp routes
to the deletion lifecycle; a missing finalizer is added with an
immediate requeue; an unchanged generation with phase Ready
short-circuits; otherwise the staged pipeline runs.  (The transient
root-Get error path, which returns the error untouched, is omitted.) -/
def Reconcile (env : PipelineEnv) (denv : DeleteEnv) (root : Option KubeNova) : PassOutput :=
  match root with
  | none => { result := ReconcileResult.done, root := none, statusWrites := [] }
  | some kn =>
    if kn.deletionTimestampSet then
      let out := reconcileDelete denv kn
      { result := if out.1.isError then ReconcileResult.deleteError else ReconcileResult.done
        root := some out.2
        statusWrites := [(setStatusPhase kn Phase.Deleting "正在删除资源").status] }
    else if kubenovaFinalizer ∉ kn.finalizers then
      { result := ReconcileResult.requeueImmediate
        root := some { kn with finalizers := kn.finalizers ++ [kubenovaFinalizer] }
        statusWrites := [] }
    else if kn.status.observedGeneration = kn.generation ∧ kn.status.phase = Phase.Ready then
      { result := ReconcileResult.idleRequeue, root := some kn, statusWrites := [] }
    else
      runPipeline env kn

/-! ## Shared concrete sample objects for witnesses and counterexamples -/

/-- A zero access-info block. -/
def emptyAccessInfo : AccessInfo :=
  { webURL := "", serviceEndpoints := fun _ => none, databaseEndpoint := ""
    cacheEndpoint := "", storageEndpoint := "", jaegerUIURL := "" }

/-- A nodeport web spec. -/
def sampleWebSpec : WebSpec := { exposeType := "nodeport", ingress := none }

/-- A sample root spec. -/
def sampleSpec : KubeNovaSpec :=
  { web := sampleWebSpec, databaseEndpoint := "db:3306", cacheEndpoint := "cache:6379"
    storageEndpoint := "minio:9000", telemetryEnabled := false, jaegerEndpoint := "" }

/-- A fresh status: nothing observed yet. -/
def sampleStatus : KubeNovaStatus :=
  { phase := Phase.Creating, message := "", observedGeneration := 0, conditions := []
    componentStatus := { services := fun _ => none, web := none }, accessInfo := none }

/-- A root entity at generation 5 whose status has not caught up. -/
def sampleKN : KubeNova :=
  { name := "demo", ns := "apps", generation := 5, resourceVersion := 11
    deletionTimestampSet := false, finalizers := [kubenovaFinalizer]
    spec := sampleSpec, status := sampleStatus }

/-- A cluster with no live state at all. -/
def emptyCluster : ClusterEnv :=
  { deployments := fun _ => none, webService := none, nodes := none }

/-- The claim-C8 failure predicate: the node listing failed, or no listed
node carries an ExternalIP/InternalIP address (the empty list satisfies
the latter vacuously). -/
def noResolvableNodeAddress (nodeList : Option (List Node)) : Prop :=
  match nodeList with
  | none => True
  | some l => ∀ n ∈ l, ∀ a ∈ n.addresses,
      a.kind ≠ AddrKind.ExternalIP ∧ a.kind ≠ AddrKind.InternalIP

/-- Two env entries that agree on name and literal value, or are both
reference-sourced (empty literal value, arbitrary references and names). -/
def refEnvRel (e1 e2 : EnvVar) : Prop :=
  (e1.ename = e2.ename ∧ e1.value = e2.value) ∨ (e1.value = "" ∧ e2.value = "")

/-- Two volumes with the same name (sources arbitrary). -/
def volSourceRel (v1 v2 : Volume) : Prop := v1.vname = v2.vname

/-- Names of the env entries that reach the comparison map. -/
def keptEnvNames (a : List EnvVar) : List String := (keptEnv a).map Prod.fst

/-- Names of a volume-mount list. -/
def vmNames (a : List VolumeMount) : List String := a.map (fun vm => vm.vmName)

/-- Delete env where the preliminary Get fails transiently. -/
def c2envGetErr : DeleteEnv :=
  { crbGet := CRBGetResult.getErr, crbDelete := CRBDeleteResult.err, finalizerUpdateOk := true }

/-- Delete env where the binding is found but the Delete call fails. -/
def c2envDelErr : DeleteEnv :=
  { crbGet := CRBGetResult.found, crbDelete := CRBDeleteResult.err, finalizerUpdateOk := true }

/-- Status-writer env: conflicts on attempts 0 and 1, success (version 42)
on attempt 2, every refetch returning the sample root. -/
def c3env : StatusWriteEnv :=
  { fetch := fun _ => some sampleKN
    upd := fun i => if i < 2 then UpdResult.conflict else UpdResult.ok 42 }

/-- Status-writer env: conflicts on every attempt. -/
def c3envAllConflict : StatusWriteEnv :=
  { fetch := fun _ => some sampleKN, upd := fun _ => UpdResult.conflict }

/-- Empty resource requirements. -/
def emptyResources : ResourceRequirements := { requests := [], limits := [] }

/-- A plain container. -/
def sampleContainer : Container :=
  { cname := "app", image := "repo/app:v1", env := [], resources := emptyResources
    volumeMounts := [], ports := [8080] }

/-- A deployment spec with the given replica count and service account. -/
def mkDeploySpec (reps : Int) (sa : String) : DeploymentSpec :=
  let pod : PodSpec :=
    { containers := [sampleContainer], volumes := [], serviceAccountName := sa
      imagePullSecrets := ["pull-secret"], nodeSelector := [] }
  { replicas := some reps, selector := [("app", "demo")]
    template := { labels := [("app", "demo")], podSpec := pod } }

/-- A deployment document wrapping mkDeploySpec. -/
def mkDeploy (nm : String) (reps : Int) (sa : String) : Deployment :=
  { dname := nm, labels := [("injected", "by-store")], dspec := mkDeploySpec reps sa
    readyReplicas := 0 }

/-- The live web deployment fetched on the update path (old identity). -/
def webLatestDeploy : Deployment := mkDeploy "kube-nova-web" 2 "old-sa"

/-- The desired web deployment (new identity). -/
def webDesiredDeploy : Deployment := mkDeploy "kube-nova-web" 2 "new-sa"

/-- Backend fixtures for the C7 witness: replicas 2 vs 3. -/
def backendLatestDeploy : Deployment := mkDeploy "portal-api" 2 "kube-nova-sa"

/-- Desired backend deployment with 3 replicas. -/
def backendDesiredDeploy : Deployment := mkDeploy "portal-api" 3 "kube-nova-sa"

/-- A sample network-expose document. -/
def sampleService : ServiceObj :=
  { ports := [{ pname := "http", port := 80, nodePort := 30080 }] }

/-- Env var X=1 (literal-sourced). -/
def envX1 : EnvVar := { ename := "X", value := "1", valueFromRef := none }

/-- Env var X=2 (literal-sourced). -/
def envX2 : EnvVar := { ename := "X", value := "2", valueFromRef := none }

/-- A reference-sourced env var (empty literal value). -/
def envYref : EnvVar := { ename := "Y", value := "", valueFromRef := some "secretKeyRef:Y" }

/-- Another reference-sourced env var with a different reference. -/
def envYref2 : EnvVar := { ename := "Y", value := "", valueFromRef := some "fieldRef:Y" }

/-- A container with duplicate volume-mount names (same name, two paths). -/
def dupMountContainer : Container :=
  { cname := "app", image := "repo/app:v1", env := [], resources := emptyResources
    volumeMounts := [{ vmName := "m", mountPath := "/a", readOnly := false },
                     { vmName := "m", mountPath := "/b", readOnly := false }], ports := [] }

/-- C9 counterexample base spec: one container with duplicate mount names,
one volume v backed by cfg-1. -/
def c9spec1 : DeploymentSpec :=
  let pod : PodSpec :=
    { containers := [dupMountContainer], volumes := [{ vname := "v", source := "cfg-1" }]
      serviceAccountName := "kube-nova-sa", imagePullSecrets := [], nodeSelector := [] }
  { replicas := some 1, selector := [], template := { labels := [], podSpec := pod } }

/-- C9 counterexample second spec: identical except the volume source. -/
def c9spec2 : DeploymentSpec :=
  { c9spec1 with template := { c9spec1.template with
      podSpec := { c9spec1.template.podSpec with
        volumes := [{ vname := "v", source := "cfg-2" }] } } }

/-- A web Service with an assigned https node port. -/
def c8svc : ServiceObj := { ports := [{ pname := "https", port := 443, nodePort := 30443 }] }

/-- Cluster where only the web deployment exists, with zero ready replicas. -/
def webZeroCluster : ClusterEnv :=
  { deployments := fun s =>
      if s = webDeploymentName then some { replicas := 1, readyReplicas := 0 } else none
    webService := none, nodes := none }

/-- Pipeline env whose validation stage fails (everything else fine). -/
def c1env : PipelineEnv :=
  { validationOk := false, namespaceOk := true, rbacOk := true, secretOk := true
    configMapsOk := true, servicesOk := true, webOk := true, cluster := emptyCluster
    finalStatusWriteOk := true }

/-- A benign delete env (unused on the non-deleting path). -/
def c1denv : DeleteEnv :=
  { crbGet := CRBGetResult.notFound, crbDelete := CRBDeleteResult.ok, finalizerUpdateOk := true }

/-- A well-formed container with a literal env var, a reference-sourced
env var and one (distinctly named) volume mount. -/
def refContainer (ref : String) : Container :=
  { cname := "app", image := "repo/app:v1"
    env := [envX1, { ename := "Y", value := "", valueFromRef := some ref }]
    resources := emptyResources
    volumeMounts := [{ vmName := "m", mountPath := "/a", readOnly := false }], ports := [] }

/-- C9 witness spec: container referencing secret Y, volume v from cfg-1. -/
def c9good1 : DeploymentSpec :=
  let pod : PodSpec :=
    { containers := [refContainer "secretKeyRef:Y"]
      volumes := [{ vname := "v", source := "cfg-1" }]
      serviceAccountName := "kube-nova-sa", imagePullSecrets := [], nodeSelector := [] }
  { replicas := some 1, selector := [], template := { labels := [], podSpec := pod } }

/-- C9 witness spec: the Y reference and the volume source changed. -/
def c9good2 : DeploymentSpec :=
  let pod : PodSpec :=
    { containers := [refContainer "fieldRef:Y"]
      volumes := [{ vname := "v", source := "cfg-2" }]
      serviceAccountName := "kube-nova-sa", imagePullSecrets := [], nodeSelector := [] }
  { replicas := some 1, selector := [], template := { labels := [], podSpec := pod } }

/-- Cluster where portal-api is fully ready but portal-rpc is only
partially ready (the claim's {A: Ready, B: Running} example). -/
def mixedCluster : ClusterEnv :=
  { deployments := fun s =>
      if s = "portal-api" then some { replicas := 2, readyReplicas := 2 }
      else if s = "portal-rpc" then some { replicas := 2, readyReplicas := 1 }
      else none
    webService := none, nodes := none }

/-- Cluster where every workload document reports 2/2 ready. -/
def readyCluster : ClusterEnv :=
  { deployments := fun _ => some { replicas := 2, readyReplicas := 2 }
    webService := none, nodes := none }

/-! ## Helper lemmas -/

theorem string_append_ne_empty (a b : String) (ha : a ≠ "") : a ++ b ≠ "" := by
  intro h
  apply ha
  have hd : a.data ++ b.data = ([] : List Char) := congrArg String.data h
  rcases List.append_eq_nil.mp hd with ⟨h1, _⟩
  cases a with
  | mk d =>
    cases h1
    rfl

theorem perm_all_eq {α : Type} {l l' : List α} (h : l.Perm l') (p : α → Bool) :
    l.all p = l'.all p := by
  induction h with
  | nil => rfl
  | cons x _ ih => simp [List.all_cons, ih]
  | swap x y l => simp [List.all_cons, Bool.and_left_comm]
  | trans _ _ ih1 ih2 => exact ih1.trans ih2

theorem findCondition_setStatusCondition (conds : List Condition) (c : Condition) :
    findCondition (setStatusCondition conds c) c.ctype = some c := by
  unfold setStatusCondition
  by_cases hany : conds.any (fun x => decide (x.ctype = c.ctype))
  · rw [if_pos hany]
    induction conds with
    | nil => simp at hany
    | cons x t ih =>
      by_cases hx : x.ctype = c.ctype
      · simp [findCondition, List.find?, hx]
      · have ht : t.any (fun x => decide (x.ctype = c.ctype)) := by
          simpa [List.any_cons, hx] using hany
        simpa [findCondition, List.find?, hx] using ih ht
  · rw [if_neg hany]
    induction conds with
    | nil => simp [findCondition, List.find?]
    | cons x t ih =>
      have hx : ¬(x.ctype = c.ctype) := by
        intro hx
        exact hany (by simp [List.any_cons, hx])
      have ht : ¬ t.any (fun x => decide (x.ctype = c.ctype)) := by
        intro h
        exact hany (by simp [List.any_cons, h])
      simpa [findCondition, List.find?, hx] using ih ht

/-! ## C10 -/

/-- C10: for every root entity the deterministic name used by the deletion
lifecycle to delete the cluster-scoped binding equals the name under which
the RBAC stage's builder creates it (kube-nova-{namespace}-{name}-cluster-admin),
so deletion always targets exactly the binding creation produced. -/
theorem c10_delete_targets_built_binding (env : DeleteEnv) (kn : KubeNova) :
    (reconcileDelete env kn).1.deleteName = (BuildClusterRoleBinding kn kn.ns).crbName := by
  cases henv : env.crbGet <;> cases hdel : env.crbDelete <;>
    simp [reconcileDelete, removeFinalizerStep, BuildClusterRoleBinding,
      clusterRoleBindingDeleteName, setStatusPhase, henv, hdel] <;>
    split <;> rfl

/-! ## C2 -/

/-- C2 counterexample: when the preliminary Get of the cluster-scoped
binding fails for a reason other than absence (a transient error), the
deletion pass never issues the Delete call, still removes the finalizer,
and reports success — contradicting the claim that such a failure returns
an error without removing the finalizer. -/
theorem c2_counterexample :
    (reconcileDelete c2envGetErr sampleKN).1.deleteCalled = false ∧
    (reconcileDelete c2envGetErr sampleKN).1.finalizerRemoved = true ∧
    (reconcileDelete c2envGetErr sampleKN).1.isError = false ∧
    (reconcileDelete c2envGetErr sampleKN).2.finalizers = [] :=
  ⟨rfl, rfl, rfl, rfl⟩

/-- C2 (amended): when the existence check finds the binding, the
finalizer is removed only after the Delete call returns success or
not-found, and a failing Delete aborts the pass with an error before any
finalizer removal; but when the existence check itself returns any error
(absence and transient errors alike) the Delete call is skipped and the
pass proceeds to finalizer removal anyway. -/
theorem c2_finalizer_ordering (env : DeleteEnv) (kn : KubeNova) :
    (env.crbGet = CRBGetResult.found →
      (reconcileDelete env kn).1.deleteCalled = true ∧
      (env.crbDelete = CRBDeleteResult.err →
        (reconcileDelete env kn).1.isError = true ∧
        (reconcileDelete env kn).1.finalizerRemoved = false ∧
        (reconcileDelete env kn).2.finalizers = kn.finalizers) ∧
      (env.crbDelete ≠ CRBDeleteResult.err →
        (reconcileDelete env kn).1.finalizerRemoved = env.finalizerUpdateOk)) ∧
    (env.crbGet ≠ CRBGetResult.found →
      (reconcileDelete env kn).1.deleteCalled = false ∧
      (reconcileDelete env kn).1.finalizerRemoved = env.finalizerUpdateOk ∧
      (reconcileDelete env kn).1.isError = !env.finalizerUpdateOk) := by
  cases henv : env.crbGet <;> cases hdel : env.crbDelete <;>
    cases hupd : env.finalizerUpdateOk <;>
    simp [reconcileDelete, removeFinalizerStep, setStatusPhase, henv, hdel, hupd]

/-- C2 witness: at a concrete input where the binding is found and its
Delete call fails, the pass errors out with the finalizer intact. -/
theorem c2_witness :
    (reconcileDelete c2envDelErr sampleKN).1.isError = true ∧
    (reconcileDelete c2envDelErr sampleKN).1.finalizerRemoved = false :=
  ⟨((c2_finalizer_ordering c2envDelErr sampleKN).1 rfl).2.1 rfl |>.1,
   ((c2_finalizer_ordering c2envDelErr sampleKN).1 rfl).2.1 rfl |>.2.1⟩

/-! ## C3 -/

theorem updateStatusLoop_fetch_none (env : StatusWriteEnv) (kn : KubeNova)
    (i n : Nat) (log : List KubeNova) (hf : env.fetch i = none) :
    updateStatusLoop env kn i (n + 1) log = (Except.error "重新获取对象失败", log) := by
  simp [updateStatusLoop, hf]

theorem updateStatusLoop_conflict_retry (env : StatusWriteEnv) (kn : KubeNova)
    (i n : Nat) (log : List KubeNova) (latest : KubeNova)
    (hf : env.fetch i = some latest) (hu : env.upd i = UpdResult.conflict) (hi : i < 2) :
    updateStatusLoop env kn i (n + 1) log =
      updateStatusLoop env kn (i + 1) n (log ++ [{ latest with status := kn.status }]) := by
  simp [updateStatusLoop, hf, hu, hi]

theorem updateStatusLoop_conflict_stop (env : StatusWriteEnv) (kn : KubeNova)
    (i n : Nat) (log : List KubeNova) (latest : KubeNova)
    (hf : env.fetch i = some latest) (hu : env.upd i = UpdResult.conflict) (hi : ¬ i < 2) :
    updateStatusLoop env kn i (n + 1) log =
      (Except.error "状态更新冲突", log ++ [{ latest with status := kn.status }]) := by
  simp [updateStatusLoop, hf, hu, hi]

theorem updateStatusLoop_err (env : StatusWriteEnv) (kn : KubeNova)
    (i n : Nat) (log : List KubeNova) (latest : KubeNova)
    (hf : env.fetch i = some latest) (hu : env.upd i = UpdResult.err) :
    updateStatusLoop env kn i (n + 1) log =
      (Except.error "状态更新失败", log ++ [{ latest with status := kn.status }]) := by
  simp [updateStatusLoop, hf, hu]

theorem updateStatusLoop_ok (env : StatusWriteEnv) (kn : KubeNova)
    (i n : Nat) (log : List KubeNova) (latest : KubeNova) (v : Nat)
    (hf : env.fetch i = some latest) (hu : env.upd i = UpdResult.ok v) :
    updateStatusLoop env kn i (n + 1) log =
      (Except.ok { kn with status := kn.status, resourceVersion := v },
       log ++ [{ latest with status := kn.status }]) := by
  simp [updateStatusLoop, hf, hu]

theorem updateStatusLoop_length (env : StatusWriteEnv) (kn : KubeNova) :
    ∀ (r i : Nat) (log : List KubeNova),
      (updateStatusLoop env kn i r log).2.length ≤ log.length + r := by
  intro r
  induction r with
  | zero => intro i log; simp [updateStatusLoop]
  | succ n ih =>
    intro i log
    cases hf : env.fetch i with
    | none => rw [updateStatusLoop_fetch_none env kn i n log hf]; simp
    | some latest =>
      cases hu : env.upd i with
      | conflict =>
        by_cases hi : i < 2
        · rw [updateStatusLoop_conflict_retry env kn i n log latest hf hu hi]
          calc (updateStatusLoop env kn (i + 1) n
                  (log ++ [{ latest with status := kn.status }])).2.length
              ≤ (log ++ [{ latest with status := kn.status }]).length + n := ih (i + 1) _
            _ ≤ log.length + (n + 1) := by simp; omega
        · rw [updateStatusLoop_conflict_stop env kn i n log latest hf hu hi]
          simp
      | err =>
        rw [updateStatusLoop_err env kn i n log latest hf hu]
        simp
      | ok v =>
        rw [updateStatusLoop_ok env kn i n log latest v hf hu]
        simp

theorem updateStatusLoop_payload_inv (env : StatusWriteEnv) (kn : KubeNova)
    (P : KubeNova → Prop)
    (hP : ∀ i f, env.fetch i = some f → P { f with status := kn.status }) :
    ∀ (r i : Nat) (log : List KubeNova), (∀ p ∈ log, P p) →
      ∀ p ∈ (updateStatusLoop env kn i r log).2, P p := by
  intro r
  induction r with
  | zero =>
    intro i log hlog p hp
    exact hlog p (by simpa [updateStatusLoop] using hp)
  | succ n ih =>
    intro i log hlog p hp
    have hlog' : ∀ (latest : KubeNova), env.fetch i = some latest →
        ∀ q ∈ log ++ [{ latest with status := kn.status }], P q := by
      intro latest hf q hq
      rcases List.mem_append.mp hq with hq | hq
      · exact hlog q hq
      · rcases List.mem_singleton.mp hq with rfl
        exact hP i latest hf
    cases hf : env.fetch i with
    | none =>
      rw [updateStatusLoop_fetch_none env kn i n log hf] at hp
      exact hlog p hp
    | some latest =>
      cases hu : env.upd i with
      | conflict =>
        by_cases hi : i < 2
        · rw [updateStatusLoop_conflict_retry env kn i n log latest hf hu hi] at hp
          exact ih (i + 1) _ (hlog' latest hf) p hp
        · rw [updateStatusLoop_conflict_stop env kn i n log latest hf hu hi] at hp
          exact hlog' latest hf p hp
      | err =>
        rw [updateStatusLoop_err env kn i n log latest hf hu] at hp
        exact hlog' latest hf p hp
      | ok v =>
        rw [updateStatusLoop_ok env kn i n log latest v hf hu] at hp
        exact hlog' latest hf p hp

/-- C3: the retry-safe status writer loops at most 3 attempts; every
document it hands to the write call is a freshly fetched root with only
the status sub-document replaced by the caller's; a run conflicting on
attempts 1 and 2 and succeeding on attempt 3 returns success and leaves
the caller's root carrying the version token obtained on attempt 3 (and
the caller's status); a run conflicting on all 3 attempts returns an
error. -/
theorem c3_retry_writer (env : StatusWriteEnv) (kn : KubeNova) :
    (updateStatusWithRetry env kn).2.length ≤ 3 ∧
    (∀ p ∈ (updateStatusWithRetry env kn).2,
      ∃ i f, env.fetch i = some f ∧ p = { f with status := kn.status }) ∧
    (∀ f0 f1 f2 v, env.fetch 0 = some f0 → env.fetch 1 = some f1 → env.fetch 2 = some f2 →
      env.upd 0 = UpdResult.conflict → env.upd 1 = UpdResult.conflict →
      env.upd 2 = UpdResult.ok v →
      (updateStatusWithRetry env kn).1 = Except.ok { kn with resourceVersion := v }) ∧
    (∀ f0 f1 f2, env.fetch 0 = some f0 → env.fetch 1 = some f1 → env.fetch 2 = some f2 →
      env.upd 0 = UpdResult.conflict → env.upd 1 = UpdResult.conflict →
      env.upd 2 = UpdResult.conflict →
      ∃ e, (updateStatusWithRetry env kn).1 = Except.error e) := by
  refine ⟨?_, ?_, ?_, ?_⟩
  · simpa using updateStatusLoop_length env kn 3 0 []
  · intro p hp
    exact updateStatusLoop_payload_inv env kn
      (fun p => ∃ i f, env.fetch i = some f ∧ p = { f with status := kn.status })
      (fun i f hf => ⟨i, f, hf, rfl⟩) 3 0 [] (by simp) p hp
  · intro f0 f1 f2 v h0 h1 h2 u0 u1 u2
    unfold updateStatusWithRetry
    rw [updateStatusLoop_conflict_retry env kn 0 2 [] f0 h0 u0 (by omega),
        updateStatusLoop_conflict_retry env kn 1 1 _ f1 h1 u1 (by omega),
        updateStatusLoop_ok env kn 2 0 _ f2 v h2 u2]
  · intro f0 f1 f2 h0 h1 h2 u0 u1 u2
    refine ⟨"状态更新冲突", ?_⟩
    unfold updateStatusWithRetry
    rw [updateStatusLoop_conflict_retry env kn 0 2 [] f0 h0 u0 (by omega),
        updateStatusLoop_conflict_retry env kn 1 1 _ f1 h1 u1 (by omega),
        updateStatusLoop_conflict_stop env kn 2 0 _ f2 h2 u2 (by omega)]

/-- C3 witness: conflicts on attempts 1 and 2, success with token 42 on
attempt 3 — the writer returns success and the root carries token 42;
the all-conflict env returns an error. -/
theorem c3_retry_writer_witness :
    (updateStatusWithRetry c3env sampleKN).1 =
      Except.ok { sampleKN with resourceVersion := 42 } ∧
    (∃ e, (updateStatusWithRetry c3envAllConflict sampleKN).1 = Except.error e) :=
  ⟨(c3_retry_writer c3env sampleKN).2.2.1 sampleKN sampleKN sampleKN 42
      rfl rfl rfl rfl rfl rfl,
   (c3_retry_writer c3envAllConflict sampleKN).2.2.2 sampleKN sampleKN sampleKN
      rfl rfl rfl rfl rfl rfl⟩

/-! ## C7 -/

/-- C7 counterexample: on the web-tier update path the freshly written
document keeps the fetched serviceAccountName ("old-sa") instead of the
desired one ("new-sa") — the identity field is not among the fields the
web splice replaces, contradicting the claim that both tiers splice all
five convergence-relevant fields. -/
theorem c7_counterexample :
    (reconcileWebDeploymentStep (some webLatestDeploy) webLatestDeploy webDesiredDeploy).map
      (fun d => d.dspec.template.podSpec.serviceAccountName) = some "old-sa" ∧
    webDesiredDeploy.dspec.template.podSpec.serviceAccountName = "new-sa" ∧
    deploymentSpecEqual webLatestDeploy.dspec webDesiredDeploy.dspec = false := by
  refine ⟨?_, rfl, ?_⟩ <;> decide

/-- C7 (amended): when the diff engine reports unequal, both tiers
re-fetch and write back a document in which replica count, containers,
volumes and pull secrets are replaced by desired values and every other
field of the fetched document is unchanged; the backend splice also
replaces the identity (serviceAccountName), while the web splice keeps
the fetched identity.  Network-expose documents are create-only and are
never updated once they exist. -/
theorem c7_update_frame (existing latest desired : Deployment) (svc desiredSvc : ServiceObj) :
    (deploymentSpecEqual existing.dspec desired.dspec = false →
      reconcileDeploymentStep (some existing) latest desired =
        some (spliceBackendDeployment latest desired) ∧
      reconcileWebDeploymentStep (some existing) latest desired =
        some (spliceWebDeployment latest desired)) ∧
    (deploymentSpecEqual existing.dspec desired.dspec = true →
      reconcileDeploymentStep (some existing) latest desired = none ∧
      reconcileWebDeploymentStep (some existing) latest desired = none) ∧
    (spliceBackendDeployment latest desired).dspec.replicas = desired.dspec.replicas ∧
    (spliceBackendDeployment latest desired).dspec.template.podSpec.containers =
      desired.dspec.template.podSpec.containers ∧
    (spliceBackendDeployment latest desired).dspec.template.podSpec.volumes =
      desired.dspec.template.podSpec.volumes ∧
    (spliceBackendDeployment latest desired).dspec.template.podSpec.serviceAccountName =
      desired.dspec.template.podSpec.serviceAccountName ∧
    (spliceBackendDeployment latest desired).dspec.template.podSpec.imagePullSecrets =
      desired.dspec.template.podSpec.imagePullSecrets ∧
    (spliceBackendDeployment latest desired).dname = latest.dname ∧
    (spliceBackendDeployment latest desired).labels = latest.labels ∧
    (spliceBackendDeployment latest desired).dspec.selector = latest.dspec.selector ∧
    (spliceBackendDeployment latest desired).dspec.template.labels =
      latest.dspec.template.labels ∧
    (spliceBackendDeployment latest desired).dspec.template.podSpec.nodeSelector =
      latest.dspec.template.podSpec.nodeSelector ∧
    (spliceBackendDeployment latest desired).readyReplicas = latest.readyReplicas ∧
    (spliceWebDeployment latest desired).dspec.replicas = desired.dspec.replicas ∧
    (spliceWebDeployment latest desired).dspec.template.podSpec.containers =
      desired.dspec.template.podSpec.containers ∧
    (spliceWebDeployment latest desired).dspec.template.podSpec.volumes =
      desired.dspec.template.podSpec.volumes ∧
    (spliceWebDeployment latest desired).dspec.template.podSpec.imagePullSecrets =
      desired.dspec.template.podSpec.imagePullSecrets ∧
    (spliceWebDeployment latest desired).dspec.template.podSpec.serviceAccountName =
      latest.dspec.template.podSpec.serviceAccountName ∧
    (spliceWebDeployment latest desired).dname = latest.dname ∧
    (spliceWebDeployment latest desired).labels = latest.labels ∧
    (spliceWebDeployment latest desired).dspec.selector = latest.dspec.selector ∧
    (spliceWebDeployment latest desired).dspec.template.labels =
      latest.dspec.template.labels ∧
    (spliceWebDeployment latest desired).dspec.template.podSpec.nodeSelector =
      latest.dspec.template.podSpec.nodeSelector ∧
    (spliceWebDeployment latest desired).readyReplicas = latest.readyReplicas ∧
    reconcileServiceStep none desiredSvc = some desiredSvc ∧
    reconcileServiceStep (some svc) desiredSvc = none := by
  refine ⟨?_, ?_, rfl, rfl, rfl, rfl, rfl, rfl, rfl, rfl, rfl, rfl, rfl, rfl, rfl, rfl,
    rfl, rfl, rfl, rfl, rfl, rfl, rfl, rfl, rfl, rfl⟩
  · intro h
    constructor <;> simp [reconcileDeploymentStep, reconcileWebDeploymentStep, h]
  · intro h
    constructor <;> simp [reconcileDeploymentStep, reconcileWebDeploymentStep, h]

/-- C7 witness: at concrete fixtures whose replica counts differ (2 vs 3)
the backend step writes exactly the backend splice; an existing Service
is never written. -/
theorem c7_update_frame_witness :
    reconcileDeploymentStep (some backendLatestDeploy) backendLatestDeploy backendDesiredDeploy =
      some (spliceBackendDeployment backendLatestDeploy backendDesiredDeploy) ∧
    reconcileServiceStep (some sampleService) sampleService = none :=
  ⟨((c7_update_frame backendLatestDeploy backendLatestDeploy backendDesiredDeploy
      sampleService sampleService).1 (by decide)).1,
   (c7_update_frame backendLatestDeploy backendLatestDeploy backendDesiredDeploy
      sampleService sampleService).2.2.2.2.2.2.2.2.2.2.2.2.2.2.2.2.2.2.2.2.2.2.2.2.2⟩

/-! ## C8 -/

theorem readyNodeIP_none (l : List Node)
    (h : ∀ n ∈ l, ∀ a ∈ n.addresses,
      a.kind ≠ AddrKind.ExternalIP ∧ a.kind ≠ AddrKind.InternalIP) :
    readyNodeIP l = none := by
  induction l with
  | nil => rfl
  | cons n rest ih =>
    have hn := h n (List.mem_cons_self n rest)
    have hext : firstAddr n AddrKind.ExternalIP = none := by
      unfold firstAddr
      rw [List.find?_eq_none.mpr]
      · rfl
      · intro a ha
        simpa using (hn a ha).1
    have hint : firstAddr n AddrKind.InternalIP = none := by
      unfold firstAddr
      rw [List.find?_eq_none.mpr]
      · rfl
      · intro a ha
        simpa using (hn a ha).2
    have hrest := ih (fun m hm => h m (List.mem_cons_of_mem n hm))
    unfold readyNodeIP
    by_cases hr : nodeIsReady n <;> simp [hr, hext, hint, hrest]

theorem getNodeIP_empty (nodes : Option (List Node)) (h : noResolvableNodeAddress nodes) :
    getNodeIP nodes = "" := by
  match nodes with
  | none => rfl
  | some [] => rfl
  | some (first :: rest) =>
    have h' : ∀ n ∈ first :: rest, ∀ a ∈ n.addresses,
        a.kind ≠ AddrKind.ExternalIP ∧ a.kind ≠ AddrKind.InternalIP := h
    have hready := readyNodeIP_none (first :: rest) h'
    have hfb : fallbackNodeIP first = none := by
      unfold fallbackNodeIP
      rw [List.find?_eq_none.mpr]
      · rfl
      · intro a ha
        have := h' first (List.mem_cons_self first rest) a ha
        simp [this.1, this.2]
    simp [getNodeIP, hready, hfb]

/-- C8: in node-port exposure mode, when no node address is resolvable
(listing failed, empty list, or no node carries an External/Internal
address), the web URL derived by the access-info stage is a non-empty
string that is either a placeholder containing the <NODE-IP> marker or
one of the two fixed waiting placeholders; the derivation is a total
function and never fails the pass. -/
theorem c8_access_info_placeholder (web : WebSpec) (svc : Option ServiceObj)
    (nodes : Option (List Node)) (current : String)
    (hmode : web.exposeType = "nodeport")
    (hnodes : noResolvableNodeAddress nodes) :
    computeWebURL web svc (getNodeIP nodes) current ≠ "" ∧
    ((∃ pre post, computeWebURL web svc (getNodeIP nodes) current =
        pre ++ "<NODE-IP>" ++ post) ∨
      computeWebURL web svc (getNodeIP nodes) current = "NodePort (端口分配中...)" ∨
      computeWebURL web svc (getNodeIP nodes) current = "Service 创建中...") := by
  have hip : getNodeIP nodes = "" := getNodeIP_empty nodes hnodes
  rw [hip]
  match svc with
  | none =>
    have heq : computeWebURL web none "" current = "Service 创建中..." := by
      simp [computeWebURL, hmode]
    rw [heq]
    exact ⟨by decide, Or.inr (Or.inr rfl)⟩
  | some s =>
    by_cases h2 : (scanWebPorts s.ports).2 > 0
    · have heq : computeWebURL web (some s) "" current =
          "https://<NODE-IP>:" ++ toString (scanWebPorts s.ports).2 := by
        simp [computeWebURL, hmode, h2]
      rw [heq]
      constructor
      · exact string_append_ne_empty _ _ (by decide)
      · refine Or.inl ⟨"https://", ":" ++ toString (scanWebPorts s.ports).2, ?_⟩
        have hlit : ("https://<NODE-IP>:" : String).data =
            ("https://" ++ "<NODE-IP>" ++ ":" : String).data := by decide
        apply String.ext
        show ("https://<NODE-IP>:" : String).data ++ (toString (scanWebPorts s.ports).2).data = _
        rw [hlit]
        simp [List.append_assoc]
    · by_cases h1 : (scanWebPorts s.ports).1 > 0
      · have heq : computeWebURL web (some s) "" current =
            "http://<NODE-IP>:" ++ toString (scanWebPorts s.ports).1 := by
          simp [computeWebURL, hmode, h1, h2]
        rw [heq]
        constructor
        · exact string_append_ne_empty _ _ (by decide)
        · refine Or.inl ⟨"http://", ":" ++ toString (scanWebPorts s.ports).1, ?_⟩
          have hlit : ("http://<NODE-IP>:" : String).data =
              ("http://" ++ "<NODE-IP>" ++ ":" : String).data := by decide
          apply String.ext
          show ("http://<NODE-IP>:" : String).data ++ (toString (scanWebPorts s.ports).1).data = _
          rw [hlit]
          simp [List.append_assoc]
      · have heq : computeWebURL web (some s) "" current = "NodePort (端口分配中...)" := by
          simp [computeWebURL, hmode, h1, h2]
        rw [heq]
        exact ⟨by decide, Or.inr (Or.inl rfl)⟩

/-- C8 witness: nodeport mode, the node listing failing, and an https
node port 30443 assigned — the derived URL is the non-empty
https://<NODE-IP>:30443 placeholder. -/
theorem c8_access_info_placeholder_witness :
    computeWebURL sampleWebSpec (some c8svc) (getNodeIP none) "" ≠ "" ∧
    ((∃ pre post, computeWebURL sampleWebSpec (some c8svc) (getNodeIP none) "" =
        pre ++ "<NODE-IP>" ++ post) ∨
      computeWebURL sampleWebSpec (some c8svc) (getNodeIP none) "" = "NodePort (端口分配中...)" ∨
      computeWebURL sampleWebSpec (some c8svc) (getNodeIP none) "" = "Service 创建中...") :=
  c8_access_info_placeholder sampleWebSpec (some c8svc) none "" rfl
    (True.intro : noResolvableNodeAddress none)

/-! ## C4 and C5 -/

theorem checkBackendMap_lookup (env : ClusterEnv) :
    ∀ (names : List String) (m : String → Option ComponentStatus) (s : String),
      checkBackendMap env names m s =
        if s ∈ names then
          (match env.deployments s with
           | none => m s
           | some d => some (backendComponentStatus d))
        else m s := by
  intro names
  induction names with
  | nil =>
    intro m s
    simp [checkBackendMap]
  | cons n t ih =>
    intro m s
    have hstep : checkBackendMap env (n :: t) m =
        checkBackendMap env t
          (match env.deployments n with
           | none => m
           | some d => updMap m n (backendComponentStatus d)) := rfl
    rw [hstep, ih]
    by_cases hst : s ∈ t
    · simp only [hst, if_true, List.mem_cons, or_true]
      cases hd : env.deployments s with
      | some d => rfl
      | none =>
        by_cases hsn : s = n
        · subst hsn
          rw [hd]
        · cases hdn : env.deployments n <;> simp [updMap, hsn, hdn]
    · by_cases hsn : s = n
      · subst hsn
        cases hd : env.deployments s <;>
          simp [hst, hd, updMap, List.mem_cons]
      · cases hd : env.deployments n <;>
          simp [hst, hsn, hd, updMap, List.mem_cons]

theorem backendAllReady_iff (env : ClusterEnv) (names : List String) :
    backendAllReady env names = true ↔
      ∀ s ∈ names, ∀ d, env.deployments s = some d → d.readyReplicas = d.replicas := by
  unfold backendAllReady
  rw [List.all_eq_true]
  constructor
  · intro h s hs d hd
    have hx := h s hs
    rw [hd] at hx
    simpa using hx
  · intro h s hs
    cases hd : env.deployments s with
    | none => simp
    | some d => simpa using h s hs d hd

theorem checkComponentStatus_services (env : ClusterEnv) (kn : KubeNova) :
    (checkComponentStatus env kn).status.componentStatus.services =
      checkBackendMap env serviceNames kn.status.componentStatus.services := by
  unfold checkComponentStatus
  cases hweb : env.deployments webDeploymentName <;>
    cases hall : allComponentsReadyFlag env <;>
    simp [hweb, hall, updateAccessInfo, setStatusPhase]

theorem checkComponentStatus_web (env : ClusterEnv) (kn : KubeNova) :
    (checkComponentStatus env kn).status.componentStatus.web =
      (match env.deployments webDeploymentName with
       | none => kn.status.componentStatus.web
       | some d => some (webComponentStatus d)) := by
  unfold checkComponentStatus
  cases hweb : env.deployments webDeploymentName <;>
    cases hall : allComponentsReadyFlag env <;>
    simp [hweb, hall, updateAccessInfo, setStatusPhase]

theorem checkComponentStatus_phase (env : ClusterEnv) (kn : KubeNova) :
    (checkComponentStatus env kn).status.phase =
      (if allComponentsReadyFlag env then Phase.Ready else Phase.Creating) := by
  unfold checkComponentStatus
  cases hall : allComponentsReadyFlag env <;>
    simp [hall, updateAccessInfo, setStatusPhase]

theorem checkComponentStatus_readyCondition (env : ClusterEnv) (kn : KubeNova) :
    ∃ c, findCondition (checkComponentStatus env kn).status.conditions ConditionTypeReady =
        some c ∧ c.status = allComponentsReadyFlag env := by
  unfold checkComponentStatus
  cases hall : allComponentsReadyFlag env
  · simp only [hall, Bool.false_eq_true, if_false]
    exact ⟨_, findCondition_setStatusCondition _ _, rfl⟩
  · simp only [hall, if_true]
    exact ⟨_, findCondition_setStatusCondition _ _, rfl⟩

theorem backendComponentStatus_classification (d : ObservedDeployment) :
    ((backendComponentStatus d).state = ComponentState.Ready ↔
      d.readyReplicas = d.replicas) ∧
    ((backendComponentStatus d).state = ComponentState.Running ↔
      d.readyReplicas ≠ d.replicas ∧ 0 < d.readyReplicas) ∧
    ((backendComponentStatus d).state = ComponentState.Pending ↔
      d.readyReplicas = 0 ∧ d.replicas ≠ 0) := by
  by_cases h1 : d.readyReplicas = d.replicas <;>
    by_cases h2 : 0 < d.readyReplicas <;>
    simp [backendComponentStatus, h1, h2] <;> omega

theorem webComponentStatus_classification (d : ObservedDeployment) :
    ((webComponentStatus d).state = ComponentState.Ready ↔
      d.readyReplicas = d.replicas) ∧
    ((webComponentStatus d).state = ComponentState.Running ↔
      d.readyReplicas ≠ d.replicas) := by
  by_cases h1 : d.readyReplicas = d.replicas <;> simp [webComponentStatus, h1]

/-- C4 counterexample: the web workload document is found with zero ready
replicas out of one desired, yet the aggregator classifies it Running,
not Pending — the web tier has no Pending branch, contradicting the
claim's classification of every managed component. -/
theorem c4_counterexample :
    webZeroCluster.deployments webDeploymentName =
      some { replicas := 1, readyReplicas := 0 } ∧
    (checkComponentStatus webZeroCluster sampleKN).status.componentStatus.web =
      some { state := ComponentState.Running, desiredReplicas := 1, readyReplicas := 0,
             message := "Web 前端部分就绪 (0/1)" } ∧
    ComponentState.Running ≠ ComponentState.Pending := by
  refine ⟨rfl, rfl, by decide⟩

/-- C4 (amended): every found backend workload is classified Ready iff
ready = desired, Running iff ready is positive and differs from desired,
and Pending iff zero are ready while desired is non-zero; the web
workload is classified Ready iff ready = desired and Running otherwise
(it has no Pending state); components whose workload document is not
readable are skipped silently, their previous entry left untouched. -/
theorem c4_component_classification (env : ClusterEnv) (kn : KubeNova) :
    (∀ s, s ∈ serviceNames → ∀ d, env.deployments s = some d →
      (checkComponentStatus env kn).status.componentStatus.services s =
        some (backendComponentStatus d) ∧
      ((backendComponentStatus d).state = ComponentState.Ready ↔
        d.readyReplicas = d.replicas) ∧
      ((backendComponentStatus d).state = ComponentState.Running ↔
        d.readyReplicas ≠ d.replicas ∧ 0 < d.readyReplicas) ∧
      ((backendComponentStatus d).state = ComponentState.Pending ↔
        d.readyReplicas = 0 ∧ d.replicas ≠ 0)) ∧
    (∀ s, s ∈ serviceNames → env.deployments s = none →
      (checkComponentStatus env kn).status.componentStatus.services s =
        kn.status.componentStatus.services s) ∧
    (∀ d, env.deployments webDeploymentName = some d →
      (checkComponentStatus env kn).status.componentStatus.web =
        some (webComponentStatus d) ∧
      ((webComponentStatus d).state = ComponentState.Ready ↔
        d.readyReplicas = d.replicas) ∧
      ((webComponentStatus d).state = ComponentState.Running ↔
        d.readyReplicas ≠ d.replicas)) ∧
    (env.deployments webDeploymentName = none →
      (checkComponentStatus env kn).status.componentStatus.web =
        kn.status.componentStatus.web) := by
  refine ⟨?_, ?_, ?_, ?_⟩
  · intro s hs d hd
    refine ⟨?_, (backendComponentStatus_classification d).1,
      (backendComponentStatus_classification d).2.1,
      (backendComponentStatus_classification d).2.2⟩
    rw [checkComponentStatus_services, checkBackendMap_lookup]
    simp [hs, hd]
  · intro s hs hd
    rw [checkComponentStatus_services, checkBackendMap_lookup]
    simp [hs, hd]
  · intro d hd
    refine ⟨?_, (webComponentStatus_classification d).1,
      (webComponentStatus_classification d).2⟩
    rw [checkComponentStatus_web, hd]
  · intro hd
    rw [checkComponentStatus_web, hd]

/-- C4 witness: in the concrete cluster where only the web workload
exists (0/1 ready), the web entry is its classification and the absent
portal-api entry is untouched. -/
theorem c4_component_classification_witness :
    (checkComponentStatus webZeroCluster sampleKN).status.componentStatus.web =
      some (webComponentStatus { replicas := 1, readyReplicas := 0 }) ∧
    (checkComponentStatus webZeroCluster sampleKN).status.componentStatus.services
        "portal-api" = sampleKN.status.componentStatus.services "portal-api" :=
  ⟨((c4_component_classification webZeroCluster sampleKN).2.2.1
      { replicas := 1, readyReplicas := 0 } rfl).1,
   (c4_component_classification webZeroCluster sampleKN).2.1 "portal-api"
      (by decide) rfl⟩

theorem allComponentsReadyFlag_iff (env : ClusterEnv) :
    allComponentsReadyFlag env = true ↔
      ((∀ s ∈ serviceNames, ∀ d, env.deployments s = some d →
          d.readyReplicas = d.replicas) ∧
       (∀ d, env.deployments webDeploymentName = some d →
          d.readyReplicas = d.replicas)) := by
  unfold allComponentsReadyFlag
  rw [Bool.and_eq_true, backendAllReady_iff]
  constructor
  · rintro ⟨hb, hw⟩
    refine ⟨hb, ?_⟩
    intro d hd
    unfold webReadyFlag at hw
    rw [hd] at hw
    simpa using hw
  · rintro ⟨hb, hw⟩
    refine ⟨hb, ?_⟩
    unfold webReadyFlag
    cases hd : env.deployments webDeploymentName with
    | none => rfl
    | some d => simpa using hw d hd

/-- C5 counterexample: with no workload document observed at all, the
aggregated root phase is Ready even though neither the web front end nor
any backend service reports Ready — the claimed biconditional over all
managed components fails for absent components. -/
theorem c5_counterexample :
    (checkComponentStatus emptyCluster sampleKN).status.phase = Phase.Ready ∧
    (checkComponentStatus emptyCluster sampleKN).status.componentStatus.web = none ∧
    (checkComponentStatus emptyCluster sampleKN).status.componentStatus.services
      "portal-api" = none :=
  ⟨rfl, rfl, rfl⟩

/-- C5 (amended): after aggregation the root phase is Ready iff every
component whose workload document is found reports ready = desired
(components not found do not block readiness); otherwise it is Creating;
a Ready condition whose status matches the phase is recorded either
way. -/
theorem c5_phase_aggregation (env : ClusterEnv) (kn : KubeNova) :
    ((checkComponentStatus env kn).status.phase = Phase.Ready ↔
      ((∀ s ∈ serviceNames, ∀ d, env.deployments s = some d →
          d.readyReplicas = d.replicas) ∧
       (∀ d, env.deployments webDeploymentName = some d →
          d.readyReplicas = d.replicas))) ∧
    ((checkComponentStatus env kn).status.phase = Phase.Ready ∨
     (checkComponentStatus env kn).status.phase = Phase.Creating) ∧
    (∃ c, findCondition (checkComponentStatus env kn).status.conditions
        ConditionTypeReady = some c ∧
      (c.status = true ↔ (checkComponentStatus env kn).status.phase = Phase.Ready)) := by
  have hphase := checkComponentStatus_phase env kn
  obtain ⟨c, hfind, hstat⟩ := checkComponentStatus_readyCondition env kn
  refine ⟨?_, ?_, ⟨c, hfind, ?_⟩⟩
  · rw [hphase]
    by_cases hall : allComponentsReadyFlag env = true
    · rw [if_pos hall]
      exact ⟨fun _ => (allComponentsReadyFlag_iff env).mp hall, fun _ => rfl⟩
    · rw [if_neg hall]
      constructor
      · intro h
        exact absurd h (by decide)
      · intro h
        exact absurd ((allComponentsReadyFlag_iff env).mpr h) hall
  · rw [hphase]
    by_cases hall : allComponentsReadyFlag env = true
    · exact Or.inl (by rw [if_pos hall])
    · exact Or.inr (by rw [if_neg hall])
  · rw [hphase, hstat]
    by_cases hall : allComponentsReadyFlag env = true
    · rw [if_pos hall, hall]
      simp
    · rw [if_neg hall]
      have hf : allComponentsReadyFlag env = false := by
        simpa using hall
      rw [hf]
      simp

/-- C5 witness: {portal-api: 2/2, portal-rpc: 1/2} aggregates to phase
Creating; the all-2/2 cluster aggregates to phase Ready. -/
theorem c5_phase_aggregation_witness :
    (checkComponentStatus mixedCluster sampleKN).status.phase = Phase.Creating ∧
    (checkComponentStatus readyCluster sampleKN).status.phase = Phase.Ready := by
  constructor
  · rcases (c5_phase_aggregation mixedCluster sampleKN).2.1 with h | h
    · exfalso
      have hx := ((c5_phase_aggregation mixedCluster sampleKN).1.mp h).1
        "portal-rpc" (by decide) { replicas := 2, readyReplicas := 1 } rfl
      simp at hx
    · exact h
  · exact (c5_phase_aggregation readyCluster sampleKN).1.mpr
      ⟨fun s _ d hd => by cases hd; rfl, fun d hd => by cases hd; rfl⟩

/-! ## C6 and C9: last-write-wins map lemmas -/

theorem pairMapR_eq_none_iff {α : Type} (l : List (String × α)) (k : String) :
    pairMapR l k = none ↔ ∀ p ∈ l, p.1 ≠ k := by
  induction l with
  | nil => simp [pairMapR]
  | cons p t ih =>
    rw [pairMapR]
    cases ht : pairMapR t k with
    | some v =>
      simp only [List.forall_mem_cons]
      constructor
      · intro h
        exact absurd h (by simp)
      · rintro ⟨_, htail⟩
        have h0 := ih.mpr htail
        rw [ht] at h0
        exact absurd h0 (by simp)
    | none =>
      have ht' : ∀ q ∈ t, q.1 ≠ k := ih.mp ht
      simp only [List.forall_mem_cons]
      by_cases hk : k = p.1
      · constructor
        · intro h
          rw [if_pos hk] at h
          exact absurd h (by simp)
        · rintro ⟨h1, _⟩
          exact absurd hk.symm h1
      · rw [if_neg hk]
        exact ⟨fun _ => ⟨fun h => hk h.symm, ht'⟩, fun _ => rfl⟩

theorem pairMapR_eq_some_iff {α : Type} (l : List (String × α)) (k : String)
    (nd : (l.map Prod.fst).Nodup) :
    ∀ v, pairMapR l k = some v ↔ (k, v) ∈ l := by
  revert nd
  induction l with
  | nil =>
    intro _ v
    simp [pairMapR]
  | cons p t ih =>
    intro nd v
    rw [List.map_cons, List.nodup_cons] at nd
    obtain ⟨hp, ndt⟩ := nd
    rw [pairMapR]
    cases ht : pairMapR t k with
    | some w =>
      have hw : (k, w) ∈ t := ((ih ndt) w).mp ht
      have hkp : k ≠ p.1 := fun hk => hp (List.mem_map.mpr ⟨(k, w), hw, hk⟩)
      constructor
      · intro h
        have hv : w = v := by simpa using h
        subst hv
        exact List.mem_cons_of_mem p hw
      · intro h
        rcases List.mem_cons.mp h with h | h
        · have hk : k = p.1 := congrArg Prod.fst h
          exact absurd hk hkp
        · have h2 := ((ih ndt) v).mpr h
          rw [ht] at h2
          exact h2
    | none =>
      have htn : ∀ q ∈ t, q.1 ≠ k := (pairMapR_eq_none_iff t k).mp ht
      by_cases hk : k = p.1
      · rw [if_pos hk]
        constructor
        · intro h
          have hv : p.2 = v := by simpa using h
          have hpe : (k, v) = p := by
            rw [← hv, hk]
          exact hpe ▸ List.mem_cons_self (k, v) t
        · intro h
          rcases List.mem_cons.mp h with h | h
          · have hv : p.2 = v := (congrArg Prod.snd h).symm
            show some p.2 = some v
            rw [hv]
          · exact absurd rfl (htn _ h)
      · rw [if_neg hk]
        constructor
        · intro h
          exact absurd h (by simp)
        · intro h
          rcases List.mem_cons.mp h with h | h
          · have hk2 : k = p.1 := congrArg Prod.fst h
            exact absurd hk2 hk
          · exact absurd rfl (htn _ h)

theorem pairMapR_perm {α : Type} {l l' : List (String × α)} (h : l.Perm l')
    (nd : (l.map Prod.fst).Nodup) (k : String) :
    pairMapR l k = pairMapR l' k := by
  have nd' : (l'.map Prod.fst).Nodup := ((h.map Prod.fst).nodup_iff).mp nd
  cases hv : pairMapR l k with
  | some v =>
    have hm := ((pairMapR_eq_some_iff l k nd) v).mp hv
    exact (((pairMapR_eq_some_iff l' k nd') v).mpr (h.mem_iff.mp hm)).symm
  | none =>
    have hm := (pairMapR_eq_none_iff l k).mp hv
    exact ((pairMapR_eq_none_iff l' k).mpr
      (fun q hq => hm q (h.mem_iff.mpr hq))).symm

theorem foldl_updMap_lookup {α β : Type} (key : β → String) (val : β → α)
    (keep : β → Prop) [DecidablePred keep] :
    ∀ (l : List β) (m : String → Option α) (k : String),
      (l.foldl (fun acc x => if keep x then updMap acc (key x) (val x) else acc) m) k =
      (match pairMapR ((l.filter (fun x => decide (keep x))).map
          (fun x => (key x, val x))) k with
       | some v => some v
       | none => m k) := by
  intro l
  induction l with
  | nil =>
    intro m k
    simp [pairMapR]
  | cons x t ih =>
    intro m k
    rw [List.foldl_cons]
    by_cases hx : keep x
    · rw [if_pos hx, ih]
      have hfil : (x :: t).filter (fun x => decide (keep x)) =
          x :: t.filter (fun x => decide (keep x)) := by
        simp [List.filter_cons, hx]
      rw [hfil, List.map_cons, pairMapR]
      cases hrest : pairMapR ((t.filter (fun x => decide (keep x))).map
          (fun x => (key x, val x))) k with
      | some v => rfl
      | none =>
        by_cases hk : k = key x
        · simp [updMap, hk]
        · simp [updMap, hk]
    · rw [if_neg hx, ih]
      have hfil : (x :: t).filter (fun x => decide (keep x)) =
          t.filter (fun x => decide (keep x)) := by
        simp [List.filter_cons, hx]
      rw [hfil]

theorem foldl_updMap_lookup_all {α β : Type} (key : β → String) (val : β → α) :
    ∀ (l : List β) (m : String → Option α) (k : String),
      (l.foldl (fun acc x => updMap acc (key x) (val x)) m) k =
      (match pairMapR (l.map (fun x => (key x, val x))) k with
       | some v => some v
       | none => m k) := by
  intro l
  induction l with
  | nil =>
    intro m k
    simp [pairMapR]
  | cons x t ih =>
    intro m k
    rw [List.foldl_cons, ih, List.map_cons, pairMapR]
    cases hrest : pairMapR (t.map (fun x => (key x, val x))) k with
    | some v => rfl
    | none =>
      by_cases hk : k = key x
      · simp [updMap, hk]
      · simp [updMap, hk]

theorem goEnvMap_eq (a : List EnvVar) (k : String) :
    goEnvMap a k = pairMapR (keptEnv a) k := by
  unfold goEnvMap keptEnv
  rw [foldl_updMap_lookup (fun e : EnvVar => e.ename) (fun e : EnvVar => e.value)
      (fun e : EnvVar => e.value ≠ "") a (fun _ => none) k]
  cases h : pairMapR ((a.filter (fun e => decide (e.value ≠ ""))).map
      (fun e => (e.ename, e.value))) k <;> rfl

theorem goVMMap_eq (a : List VolumeMount) (k : String) :
    goVMMap a k = pairMapR (a.map (fun vm => (vm.vmName, vm))) k := by
  unfold goVMMap
  rw [foldl_updMap_lookup_all (fun vm : VolumeMount => vm.vmName)
      (fun vm : VolumeMount => vm) a (fun _ => none) k]
  cases h : pairMapR (a.map (fun vm => (vm.vmName, vm))) k <;> rfl

theorem keptEnv_perm {a a' : List EnvVar} (h : a.Perm a') :
    (keptEnv a).Perm (keptEnv a') := by
  unfold keptEnv
  exact (h.filter (fun e => decide (e.value ≠ ""))).map (fun e => (e.ename, e.value))

theorem goEnvMap_perm {a a' : List EnvVar} (h : a.Perm a')
    (nd : (keptEnvNames a).Nodup) : goEnvMap a = goEnvMap a' := by
  funext k
  rw [goEnvMap_eq, goEnvMap_eq]
  exact pairMapR_perm (keptEnv_perm h) (by simpa [keptEnvNames] using nd) k

theorem goVMMap_perm {a a' : List VolumeMount} (h : a.Perm a')
    (nd : (vmNames a).Nodup) : goVMMap a = goVMMap a' := by
  funext k
  rw [goVMMap_eq, goVMMap_eq]
  refine pairMapR_perm (h.map (fun vm => (vm.vmName, vm))) ?_ k
  simpa [List.map_map, Function.comp, vmNames] using nd

theorem compareEnvVars_perm_left (a a' b : List EnvVar) (h : a.Perm a')
    (nd : (keptEnvNames a).Nodup) : compareEnvVars a b = compareEnvVars a' b := by
  have hm : goEnvMap a = goEnvMap a' := goEnvMap_perm h nd
  unfold compareEnvVars
  rw [h.length_eq, hm, perm_all_eq h]

theorem compareEnvVars_perm_right (a b b' : List EnvVar) (h : b.Perm b')
    (nd : (keptEnvNames b).Nodup) : compareEnvVars a b = compareEnvVars a b' := by
  have hm : goEnvMap b = goEnvMap b' := goEnvMap_perm h nd
  unfold compareEnvVars
  rw [h.length_eq, hm, perm_all_eq h]

theorem compareVolumeMounts_perm_left (a a' b : List VolumeMount) (h : a.Perm a')
    (nd : (vmNames a).Nodup) : compareVolumeMounts a b = compareVolumeMounts a' b := by
  have hm : goVMMap a = goVMMap a' := goVMMap_perm h nd
  unfold compareVolumeMounts
  rw [h.length_eq, hm]

theorem compareVolumeMounts_perm_right (a b b' : List VolumeMount) (h : b.Perm b') :
    compareVolumeMounts a b = compareVolumeMounts a b' := by
  unfold compareVolumeMounts
  rw [h.length_eq, perm_all_eq h]

/-- C6 counterexample: with two env entries sharing the name X, the
last-write-wins map construction makes the comparison depend on order —
[X=1, X=2] compares equal to a list whose map is {X↦2}, but its
permutation [X=2, X=1] does not — so permuting a list without changing
its elements can change the comparison result. -/
theorem c6_counterexample :
    compareEnvVars [envX1, envX2] [envX2, envYref] = true ∧
    compareEnvVars [envX2, envX1] [envX2, envYref] = false ∧
    List.Perm [envX1, envX2] [envX2, envX1] := by
  refine ⟨by decide, by decide, ?_⟩
  exact List.Perm.swap envX2 envX1 []

/-- C6 (amended): the diff engine's equality check is unaffected by
fields outside its fixed comparison set (store-injected metadata labels,
selector, template labels, nodeSelector); changing the replica count
from 2 to 3 falsifies it; environment-variable and volume-mount
comparisons are order-irrelevant provided entry names are distinct (for
env vars, distinct among entries with a non-empty literal value;
permuting the second volume-mount argument needs no side condition) —
with duplicate names the last-write-wins maps can change the result, as
the counterexample shows. -/
theorem c6_diff_scoping (e d : DeploymentSpec) (exD latest desired : Deployment)
    (lbl sel nsel : List (String × String)) (lbl2 : List (String × String))
    (a a' b b' : List EnvVar) (va va' vb vb' : List VolumeMount) :
    (deploymentSpecEqual
      { e with selector := sel
               template := { e.template with
                 labels := lbl
                 podSpec := { e.template.podSpec with nodeSelector := nsel } } } d =
      deploymentSpecEqual e d) ∧
    (reconcileDeploymentStep (some { exD with labels := lbl2 }) latest desired =
      reconcileDeploymentStep (some exD) latest desired) ∧
    (e.replicas = some 2 → d.replicas = some 3 → deploymentSpecEqual e d = false) ∧
    (a.Perm a' → (keptEnvNames a).Nodup →
      compareEnvVars a b = compareEnvVars a' b) ∧
    (b.Perm b' → (keptEnvNames b).Nodup →
      compareEnvVars a b = compareEnvVars a b') ∧
    (va.Perm va' → (vmNames va).Nodup →
      compareVolumeMounts va vb = compareVolumeMounts va' vb) ∧
    (vb.Perm vb' → compareVolumeMounts va vb = compareVolumeMounts va vb') := by
  refine ⟨rfl, rfl, ?_, ?_, ?_, ?_, ?_⟩
  · intro h2 h3
    unfold deploymentSpecEqual
    rw [h2, h3]
    simp [compareInt32Ptr]
  · exact fun h nd => compareEnvVars_perm_left a a' b h nd
  · exact fun h nd => compareEnvVars_perm_right a b b' h nd
  · exact fun h nd => compareVolumeMounts_perm_left va va' vb h nd
  · exact fun h => compareVolumeMounts_perm_right va vb vb' h

/-- C6 witness: concrete instantiations — replicas 2 vs 3 falsify the
diff; permuting a duplicate-free env list leaves the comparison result
unchanged. -/
theorem c6_diff_scoping_witness :
    deploymentSpecEqual (mkDeploySpec 2 "kube-nova-sa") (mkDeploySpec 3 "kube-nova-sa")
      = false ∧
    compareEnvVars [envX1, envYref] [envX1, envYref] =
      compareEnvVars [envYref, envX1] [envX1, envYref] :=
  ⟨(c6_diff_scoping (mkDeploySpec 2 "kube-nova-sa") (mkDeploySpec 3 "kube-nova-sa")
      backendLatestDeploy backendLatestDeploy backendDesiredDeploy
      [] [] [] [] [] [] [] [] [] [] [] []).2.2.1 rfl rfl,
   (c6_diff_scoping (mkDeploySpec 2 "kube-nova-sa") (mkDeploySpec 3 "kube-nova-sa")
      backendLatestDeploy backendLatestDeploy backendDesiredDeploy
      [] [] [] [] [envX1, envYref] [envYref, envX1] [envX1, envYref] [] [] [] [] []).2.2.2.1
      (List.Perm.swap envYref envX1 []) (by decide)⟩

theorem compareInt32Ptr_self (x : Option Int) : compareInt32Ptr x x = true := by
  cases x <;> simp [compareInt32Ptr]

theorem compareVolumeMounts_self (a : List VolumeMount) (nd : (vmNames a).Nodup) :
    compareVolumeMounts a a = true := by
  unfold compareVolumeMounts
  rw [Bool.and_eq_true]
  refine ⟨by simp, ?_⟩
  rw [List.all_eq_true]
  intro vm hvm
  have hmem : (vm.vmName, vm) ∈ a.map (fun v => (v.vmName, v)) :=
    List.mem_map.mpr ⟨vm, hvm, rfl⟩
  have hnd : ((a.map (fun v => (v.vmName, v))).map Prod.fst).Nodup := by
    simpa [List.map_map, Function.comp, vmNames] using nd
  have hsome := ((pairMapR_eq_some_iff (a.map (fun v => (v.vmName, v)))
    vm.vmName hnd) vm).mpr hmem
  have hmap : goVMMap a vm.vmName = some vm := by
    rw [goVMMap_eq]
    exact hsome
  simp [hmap]

theorem keptEnv_eq_of_forall₂ {a b : List EnvVar} (h : List.Forall₂ refEnvRel a b) :
    keptEnv a = keptEnv b := by
  induction h with
  | nil => rfl
  | cons hr ht ih =>
    rename_i x y tx ty
    rcases hr with ⟨hn, hv⟩ | ⟨h1, h2⟩
    · by_cases hx : x.value = ""
      · have hy : y.value = "" := by rw [← hv]; exact hx
        have ex : keptEnv (x :: tx) = keptEnv tx := by
          simp [keptEnv, List.filter_cons, hx]
        have ey : keptEnv (y :: ty) = keptEnv ty := by
          simp [keptEnv, List.filter_cons, hy]
        rw [ex, ey, ih]
      · have hy : ¬ y.value = "" := by rw [← hv]; exact hx
        have ex : keptEnv (x :: tx) = (x.ename, x.value) :: keptEnv tx := by
          simp [keptEnv, List.filter_cons, hx]
        have ey : keptEnv (y :: ty) = (y.ename, y.value) :: keptEnv ty := by
          simp [keptEnv, List.filter_cons, hy]
        rw [ex, ey, ih, hn, hv]
    · have ex : keptEnv (x :: tx) = keptEnv tx := by
        simp [keptEnv, List.filter_cons, h1]
      have ey : keptEnv (y :: ty) = keptEnv ty := by
        simp [keptEnv, List.filter_cons, h2]
      rw [ex, ey, ih]

theorem compareEnvVars_of_forall₂ {a b : List EnvVar} (h : List.Forall₂ refEnvRel a b) :
    compareEnvVars a b = true := by
  have hk := keptEnv_eq_of_forall₂ h
  have hm : goEnvMap a = goEnvMap b := by
    funext k
    rw [goEnvMap_eq, goEnvMap_eq, hk]
  unfold compareEnvVars
  rw [h.length_eq, hm]
  simp [List.all_eq_true]

theorem forall₂_mem_right {α β : Type} {R : α → β → Prop} {a : List α} {b : List β}
    (h : List.Forall₂ R a b) : ∀ v ∈ b, ∃ w ∈ a, R w v := by
  induction h with
  | nil =>
    intro v hv
    simp at hv
  | cons hr ht ih =>
    rename_i x y tx ty
    intro v hv
    rcases List.mem_cons.mp hv with rfl | hv
    · exact ⟨x, List.mem_cons_self _ _, hr⟩
    · obtain ⟨w, hw, hRw⟩ := ih v hv
      exact ⟨w, List.mem_cons_of_mem _ hw, hRw⟩

theorem compareVolumes_of_forall₂ {a b : List Volume}
    (h : List.Forall₂ volSourceRel a b) : compareVolumes a b = true := by
  unfold compareVolumes
  rw [Bool.and_eq_true]
  refine ⟨by simp [h.length_eq], ?_⟩
  rw [List.all_eq_true]
  intro v hv
  obtain ⟨w, hw, hname⟩ := forall₂_mem_right h v hv
  exact List.any_eq_true.mpr ⟨w, hw, by simpa using hname⟩

/-- C9 counterexample: two documents identical except for a volume's
source, whose shared container carries duplicate volume-mount names —
the diff reports them unequal, because the last-wins mount map makes a
duplicate-named list fail comparison even against itself. -/
theorem c9_counterexample :
    deploymentSpecEqual c9spec1 c9spec2 = false ∧
    c9spec2 = { c9spec1 with template := { c9spec1.template with
      podSpec := { c9spec1.template.podSpec with
        volumes := [{ vname := "v", source := "cfg-2" }] } } } ∧
    List.Forall₂ volSourceRel c9spec1.template.podSpec.volumes
      c9spec2.template.podSpec.volumes ∧
    compareVolumeMounts dupMountContainer.volumeMounts
      dupMountContainer.volumeMounts = false := by
  refine ⟨by decide, rfl, ?_, by decide⟩
  exact List.Forall₂.cons rfl List.Forall₂.nil

/-- C9 (amended): the env comparison ignores every entry with an empty
literal value, and the pod-volume comparison is by name only — two
documents of equal list lengths agreeing on everything the diff reads,
whose env lists pairwise agree on name and literal value or are both
reference-sourced, and whose volumes pairwise agree on name, compare
equal and trigger no workload update — provided the first container's
volume-mount names are distinct (duplicate mount names falsify even
self-comparison, as the counterexample shows). -/
theorem c9_reference_fields_ignored (e d : DeploymentSpec)
    (hrep : e.replicas = d.replicas)
    (hlen : e.template.podSpec.containers.length = d.template.podSpec.containers.length)
    (hhead : ∀ ec dc, e.template.podSpec.containers.head? = some ec →
      d.template.podSpec.containers.head? = some dc →
      ec.image = dc.image ∧ List.Forall₂ refEnvRel ec.env dc.env ∧
      ec.resources = dc.resources ∧ ec.volumeMounts = dc.volumeMounts ∧
      (vmNames ec.volumeMounts).Nodup)
    (hvol : List.Forall₂ volSourceRel e.template.podSpec.volumes
      d.template.podSpec.volumes)
    (hsa : e.template.podSpec.serviceAccountName =
      d.template.podSpec.serviceAccountName) :
    deploymentSpecEqual e d = true ∧
    (∀ (exD latest desired : Deployment), exD.dspec = e → desired.dspec = d →
      reconcileDeploymentStep (some exD) latest desired = none ∧
      reconcileWebDeploymentStep (some exD) latest desired = none) := by
  have heq : deploymentSpecEqual e d = true := by
    unfold deploymentSpecEqual
    simp only [Bool.and_eq_true]
    refine ⟨⟨⟨⟨?_, ?_⟩, ?_⟩, ?_⟩, ?_⟩
    · rw [hrep]
      exact compareInt32Ptr_self _
    · simp [hlen]
    · cases he : e.template.podSpec.containers with
      | nil => rfl
      | cons ec et =>
        cases hd2 : d.template.podSpec.containers with
        | nil => rfl
        | cons dc dt =>
          obtain ⟨him, henv, hres, hvm, hndvm⟩ := hhead ec dc
            (by rw [he]; rfl) (by rw [hd2]; rfl)
          simp only [Bool.and_eq_true]
          refine ⟨⟨⟨by simp [him], compareEnvVars_of_forall₂ henv⟩, ?_⟩, ?_⟩
          · rw [hres]
            simp [compareResourceRequirements]
          · rw [hvm]
            exact compareVolumeMounts_self dc.volumeMounts (hvm ▸ hndvm)
    · exact compareVolumes_of_forall₂ hvol
    · simp [hsa]
  refine ⟨heq, ?_⟩
  intro exD latest desired he hd
  rw [reconcileDeploymentStep, reconcileWebDeploymentStep, he, hd]
  simp [heq]

/-- C9 witness: concrete documents differing only in the Y env entry's
reference source and the volume v's backing source compare equal. -/
theorem c9_reference_fields_ignored_witness :
    deploymentSpecEqual c9good1 c9good2 = true :=
  (c9_reference_fields_ignored c9good1 c9good2 rfl rfl
    (fun ec dc hec hdc => by
      cases hec
      cases hdc
      exact ⟨rfl,
        List.Forall₂.cons (Or.inl ⟨rfl, rfl⟩)
          (List.Forall₂.cons (Or.inr ⟨rfl, rfl⟩) List.Forall₂.nil),
        rfl, rfl, by decide⟩)
    (List.Forall₂.cons rfl List.Forall₂.nil) rfl).1

/-! ## C1 -/

/-- C1 counterexample: at generation 5 with observedGeneration 0, a pass
whose validation stage fails still persists a status whose
observedGeneration equals the root's current generation (5), while the
pass itself ends in the error backoff — contradicting the claim that a
failing pass never advances observedGeneration to the current
generation. -/
theorem c1_counterexample :
    sampleKN.generation = 5 ∧
    sampleKN.status.observedGeneration = 0 ∧
    (Reconcile c1env c1denv (some sampleKN)).result = ReconcileResult.errorBackoff ∧
    (Reconcile c1env c1denv (some sampleKN)).statusWrites.map
      (fun st => (st.observedGeneration, st.phase)) = [(5, Phase.Failed)] :=
  ⟨rfl, rfl, rfl, rfl⟩

/-- C1 (amended): every pass that reaches the pipeline and fails at any
stage persists exactly one status, whose observedGeneration has been
advanced to the root's current generation by setStatusPhase — with phase
Failed — and returns the error backoff; observedGeneration alone
therefore does not certify a successful pass (the engine's own
short-circuit also requires phase Ready). -/
theorem c1_observedGeneration_on_failure (env : PipelineEnv) (denv : DeleteEnv)
    (kn : KubeNova)
    (h1 : kn.deletionTimestampSet = false)
    (h2 : kubenovaFinalizer ∈ kn.finalizers)
    (h3 : ¬(kn.status.observedGeneration = kn.generation ∧
            kn.status.phase = Phase.Ready))
    (h4 : (env.validationOk && env.namespaceOk && env.rbacOk && env.secretOk &&
           env.configMapsOk && env.servicesOk && env.webOk) = false) :
    (Reconcile env denv (some kn)).statusWrites.map
      (fun st => (st.observedGeneration, st.phase)) = [(kn.generation, Phase.Failed)] ∧
    (Reconcile env denv (some kn)).result = ReconcileResult.errorBackoff := by
  have hrec : Reconcile env denv (some kn) = runPipeline env kn := by
    unfold Reconcile
    simp [h1, h3, not_not_intro h2]
  rw [hrec]
  cases hv : env.validationOk with
  | false =>
    constructor <;>
      simp [runPipeline, failPass, setStatusPhase, validatedCondition, hv]
  | true =>
  cases hn : env.namespaceOk with
  | false =>
    constructor <;>
      simp [runPipeline, failPass, setStatusPhase, validatedCondition, hv, hn]
  | true =>
  cases hr : env.rbacOk with
  | false =>
    constructor <;>
      simp [runPipeline, failPass, setStatusPhase, validatedCondition, hv, hn, hr]
  | true =>
  cases hs : env.secretOk with
  | false =>
    constructor <;>
      simp [runPipeline, failPass, setStatusPhase, validatedCondition, hv, hn, hr, hs]
  | true =>
  cases hc : env.configMapsOk with
  | false =>
    constructor <;>
      simp [runPipeline, failPass, setStatusPhase, validatedCondition,
        hv, hn, hr, hs, hc]
  | true =>
  cases hsv : env.servicesOk with
  | false =>
    constructor <;>
      simp [runPipeline, failPass, setStatusPhase, validatedCondition,
        hv, hn, hr, hs, hc, hsv]
  | true =>
  cases hw : env.webOk with
  | false =>
    constructor <;>
      simp [runPipeline, failPass, setStatusPhase, validatedCondition,
        hv, hn, hr, hs, hc, hsv, hw]
  | true =>
    exfalso
    rw [hv, hn, hr, hs, hc, hsv, hw] at h4
    simp at h4

/-- C1 witness: the concrete failing-validation pass on the sample root
persists one status at observedGeneration 5 (the current generation)
with phase Failed and ends in the error backoff. -/
theorem c1_observedGeneration_on_failure_witness :
    (Reconcile c1env c1denv (some sampleKN)).statusWrites.map
      (fun st => (st.observedGeneration, st.phase)) =
        [(sampleKN.generation, Phase.Failed)] ∧
    (Reconcile c1env c1denv (some sampleKN)).result = ReconcileResult.errorBackoff :=
  c1_observedGeneration_on_failure c1env c1denv sampleKN rfl (by decide)
    (by decide) rfl
